import Mathlib

/-!
Shallow embedding of the CPG (code property graph) construction engine of the
`llm_scanner` repository, together with proofs checking the claims of its
natural-language specification.

Embedded components (file names refer to the repository sources):

* `src/llm_scanner/models/base.py` — `NodeID.create`.
* `src/llm_scanner/models/nodes/*` and `models/edges/*` — the node and edge
  records, restricted to the fields the tree-sitter builder actually
  populates (the remaining fields keep their pydantic defaults).
* `src/llm_scanner/services/cpg_parser/ts_parser/node_processor.py` —
  `NodeProcessor`, the single-file recursive tree walker.
* `src/llm_scanner/services/cpg_parser/ts_parser/cpg_builder.py` —
  `CPGFileBuilder.build`, the node-merge loop of `CPGDirectoryBuilder.build`,
  and `CPGDirectoryBuilder._resolve_import_from_module`.

Modelling conventions:

* Python strings are Lean `String`s.  Sources are restricted to ASCII, so the
  byte offsets reported by tree-sitter coincide with character offsets and a
  source is carried as its `List Char`.
* Python `dict`s are association lists with Python's insertion-order
  semantics: updating an existing key keeps its position, a fresh key is
  appended.  `set`s only ever face membership tests here and are lists.
* Python string primitives (`str.split`, `".".join`, `str.strip`,
  `str.lower`, `str.startswith`, `str.splitlines`) are re-implemented as
  structurally recursive char-list functions (Lean's own `String` API is
  partly opaque to kernel evaluation); each `py…` helper documents the
  Python expression it stands for.
* Unbounded Python recursion is modelled with an explicit fuel parameter;
  running out of fuel is a distinguished outcome, separate from the
  `ValueError` the source can raise.
* The tree-sitter CST is an explicit tree: every child optionally carries the
  tree-sitter field tag under which `child_by_field_name` finds it, and the
  `named` flag separates named nodes from anonymous tokens.
-/

/-! ## Python string primitives -/

/-- Python `str.isspace` for a single ASCII character (the subset relevant to
Python source text). -/
def pyIsSpace (c : Char) : Bool :=
  c = ' ' || c = '\t' || c = '\n' || c = '\r'

/-- Helper for `pyWords`: accumulates the current (reversed) word. -/
def pyWordsAux : List Char → List Char → List (List Char)
  | [], cur => if cur.isEmpty then [] else [cur.reverse]
  | c :: rest, cur =>
    if pyIsSpace c then
      if cur.isEmpty then pyWordsAux rest [] else cur.reverse :: pyWordsAux rest []
    else pyWordsAux rest (c :: cur)

/-- Python `raw.split()` (no separator): maximal runs of non-whitespace, with
no empty tokens. -/
def pyWords (s : String) : List String :=
  (pyWordsAux s.data []).map (fun w => ⟨w⟩)

/-- Helper for `pyJoin`. -/
def pyJoinAux (sep : List Char) : List (List Char) → List Char
  | [] => []
  | [w] => w
  | w :: rest => w ++ sep ++ pyJoinAux sep rest

/-- Python `sep.join(parts)`. -/
def pyJoin (sep : String) (parts : List String) : String :=
  ⟨pyJoinAux sep.data (parts.map String.data)⟩

/-- Python `s.strip()` (ASCII whitespace). -/
def pyStrip (s : String) : String :=
  ⟨((s.data.dropWhile pyIsSpace).reverse.dropWhile pyIsSpace).reverse⟩

/-- Python `s.lower()` (ASCII; `Char.toLower` only moves `A`–`Z`). -/
def pyLower (s : String) : String :=
  ⟨s.data.map Char.toLower⟩

/-- Python `s.startswith(pre)`. -/
def pyStartswith (s pre : String) : Bool :=
  pre.data.isPrefixOf s.data

/-- Helper for `pySplitDot`: splits a char list at every `'.'`; always returns
at least one (possibly empty) piece, like Python `s.split(".")`. -/
def pySplitDotAux : List Char → List (List Char)
  | [] => [[]]
  | c :: rest =>
    match pySplitDotAux rest with
    | [] => [[]]
    | h :: t => if c = '.' then [] :: h :: t else (c :: h) :: t

/-- Python `s.split(".")`. -/
def pySplitDot (s : String) : List String :=
  (pySplitDotAux s.data).map (fun w => ⟨w⟩)

/-- Python `"." in s`. -/
def pyContainsDot (s : String) : Bool :=
  s.data.contains '.'

/-- Python `s.rsplit(".", 1)[0]` for a string that contains a dot: everything
before the last `'.'`.  (The source only evaluates it under that guard.) -/
def pyRsplitDotHead (s : String) : String :=
  pyJoin "." ((pySplitDot s).dropLast)

/-- Helper for `pySplitlines`: splits at `'\n'`. -/
def pySplitNl : List Char → List (List Char)
  | [] => [[]]
  | c :: rest =>
    match pySplitNl rest with
    | [] => [[]]
    | h :: t => if c = '\n' then [] :: h :: t else (c :: h) :: t

/-- Python `s.splitlines()` for sources that use `'\n'` line endings: like
splitting at newlines, except that a trailing newline contributes no empty
final line and the empty string has no lines. -/
def pySplitlines (s : String) : List String :=
  if s.data.isEmpty then []
  else
    let parts := pySplitNl s.data
    let parts := if s.data.getLast? = some '\n' then parts.dropLast else parts
    parts.map (fun w => ⟨w⟩)

/-! ## Python dicts as insertion-ordered association lists -/

/-- Python `d.get(k)` / `d[k]`. -/
def pyDictGet {α : Type} (m : List (String × α)) (k : String) : Option α :=
  match m with
  | [] => none
  | (k', v) :: rest => if k' = k then some v else pyDictGet rest k

/-- Python `d[k] = v`: overwrite in place, or append a fresh key. -/
def pyDictSet {α : Type} (m : List (String × α)) (k : String) (v : α) :
    List (String × α) :=
  match m with
  | [] => [(k, v)]
  | (k', v') :: rest =>
    if k' = k then (k', v) :: rest else (k', v') :: pyDictSet rest k v

/-- Python `d.update(other)`: insert `other`'s items in order. -/
def pyDictUpdate {α : Type} (m other : List (String × α)) : List (String × α) :=
  other.foldl (fun acc kv => pyDictSet acc kv.1 kv.2) m

/-- Python `k in d`. -/
def pyDictContains {α : Type} (m : List (String × α)) (k : String) : Bool :=
  (pyDictGet m k).isSome

/-! ## models/base.py — NodeID -/

/-- `NodeID` subclasses `str`; the embedding uses plain strings. -/
abbrev NodeID := String

/-- `NodeID.create` of `models/base.py`:
`cls(f"{type_.lower()}:{name}@{path}:{start_byte}")`. -/
def NodeID.create (type_ name path : String) (startByte : Nat) : NodeID :=
  pyLower type_ ++ ":" ++ name ++ "@" ++ path ++ ":" ++ Nat.repr startByte

/-! ## The tree-sitter CST interface -/

mutual
/-- A tree-sitter node: type tag, named flag, byte range, row range
(`start_point[0]` / `end_point[0]`), and children. -/
inductive TSNode : Type where
  | mk (type_ : String) (named : Bool) (startByte endByte startRow endRow : Nat)
      (children : TSChildren)

/-- The children of a tree-sitter node, each optionally carrying the field tag
under which `child_by_field_name` finds it. -/
inductive TSChildren : Type where
  | nil
  | cons (tag : Option String) (node : TSNode) (rest : TSChildren)
end

def TSNode.type_ : TSNode → String
  | .mk t _ _ _ _ _ _ => t

def TSNode.named : TSNode → Bool
  | .mk _ n _ _ _ _ _ => n

def TSNode.startByte : TSNode → Nat
  | .mk _ _ sb _ _ _ _ => sb

def TSNode.endByte : TSNode → Nat
  | .mk _ _ _ eb _ _ _ => eb

def TSNode.startRow : TSNode → Nat
  | .mk _ _ _ _ sr _ _ => sr

def TSNode.endRow : TSNode → Nat
  | .mk _ _ _ _ _ er _ => er

def TSChildren.toList : TSChildren → List (Option String × TSNode)
  | .nil => []
  | .cons tag n rest => (tag, n) :: rest.toList

/-- Python `node.children` (named and anonymous, in order). -/
def TSNode.childNodes : TSNode → List TSNode
  | .mk _ _ _ _ _ _ ch => ch.toList.map Prod.snd

/-- Python `node.child_by_field_name(f)`: the first child carrying tag `f`. -/
def TSNode.childByFieldName (n : TSNode) (f : String) : Option TSNode :=
  match n with
  | .mk _ _ _ _ _ _ ch => goChild ch
where goChild : TSChildren → Option TSNode
  | .nil => none
  | .cons tag c rest => if tag = some f then some c else goChild rest

/-- Tree-sitter node identity (`TSNode.__eq__`), decided here by position and
type tag; distinct nodes of one parse tree never agree on all three. -/
def tsEq (a b : TSNode) : Bool :=
  a.type_ = b.type_ && a.startByte = b.startByte && a.endByte = b.endByte

/-- Convenience constructor building `TSChildren` from a list. -/
def tsChildrenOfList : List (Option String × TSNode) → TSChildren
  | [] => .nil
  | (tag, n) :: rest => .cons tag n (tsChildrenOfList rest)

/-- Convenience constructor for concrete trees. -/
def tsNode (t : String) (named : Bool) (sb eb sr er : Nat)
    (ch : List (Option String × TSNode)) : TSNode :=
  .mk t named sb eb sr er (tsChildrenOfList ch)

/-! ## models/nodes and models/edges — the graph data model

Only the fields that `node_processor.py` populates are carried; every other
pydantic field keeps its default and plays no role in any claim.  (The models
package of the source snapshot is internally inconsistent — e.g.
`models/nodes/__init__.py` imports names that do not exist, and
`models/nodes/code.py` declares required fields the builder never passes —
so the shapes embedded here are the ones the builder actually constructs.) -/

/-- `models/nodes/code.py` `FunctionNode`, fields populated by the builder. -/
structure FunctionNode where
  identifier : NodeID
  name : String
  lineStart : Nat
  lineEnd : Nat
  filePath : String
deriving DecidableEq, Repr

/-- `models/nodes/code.py` `ClassNode`, fields populated by the builder. -/
structure ClassNode where
  identifier : NodeID
  name : String
  filePath : String
  lineStart : Nat
  lineEnd : Nat
deriving DecidableEq, Repr

/-- `models/nodes/code.py` `CodeBlockNode`, fields populated by the builder. -/
structure CodeBlockNode where
  identifier : NodeID
  lineStart : Nat
  lineEnd : Nat
  filePath : String
deriving DecidableEq, Repr

/-- `models/nodes/variable.py` `VariableNode`, fields populated by the
builder (`type_hint` defaults to `""`). -/
structure VariableNode where
  identifier : NodeID
  name : String
  typeHint : String
  lineStart : Nat
  lineEnd : Nat
  filePath : String
deriving DecidableEq, Repr

/-- `models/nodes/call_site.py` `CallNode`, fields populated by the builder. -/
structure CallNode where
  identifier : NodeID
  callerId : NodeID
  calleeId : NodeID
  lineStart : Nat
  lineEnd : Nat
  filePath : String
deriving DecidableEq, Repr

/-- The union of node variants the builder stores into `nodes`. -/
inductive Node : Type where
  | func (f : FunctionNode)
  | cls (c : ClassNode)
  | codeBlock (b : CodeBlockNode)
  | var (v : VariableNode)
  | call (c : CallNode)
deriving DecidableEq, Repr

/-- `models/edges/data_flow.py` `DefinitionOperation`. -/
inductive DefinitionOperation : Type where
  | assignment
  | parameter
  | returnValue
deriving DecidableEq, Repr

/-- The union of edge variants the builder appends, with the kind-specific
attributes it sets (`CallGraphCalls` gets `is_direct=True, call_depth=0`;
`CallGraphCalledBy` keeps its defaults `call_count=None`,
`is_entry_point_path=False`). -/
inductive Edge : Type where
  | dataFlowDefinedBy (src dst : NodeID) (operation : DefinitionOperation)
  | dataFlowFlowsTo (src dst : NodeID)
  | callGraphCalls (src dst : NodeID) (isDirect : Bool) (callDepth : Nat)
  | callGraphCalledBy (src dst : NodeID) (callCount : Option Nat)
      (isEntryPointPath : Bool)
deriving DecidableEq, Repr

/-- `models/nodes/base.py` `NodeType` (a `str` enum). -/
inductive NodeType : Type where
  | function
  | cls
  | module
deriving DecidableEq, Repr

/-- The string value of a `NodeType` member. -/
def NodeType.str : NodeType → String
  | .function => "Function"
  | .cls => "Class"
  | .module => "Module"

/-! ## NodeProcessor state -/

/-- The per-file node collection `nodes: dict[NodeID, Node]`. -/
abbrev NodeMap := List (NodeID × Node)

/-- `ParserResult = tuple[dict[NodeID, Node], list[RelationshipBase]]`. -/
abbrev ParserResult := NodeMap × List Edge

/-- Immutable per-file inputs of a `NodeProcessor` (its `path`, `source` and
`lines` fields; `source_text` is `⟨source⟩` and is never used separately).
The write-only `visited_node_ids` set is read by nothing and is omitted. -/
structure ProcCtx where
  path : String
  source : List Char
  lines : List String

/-- The mutable private state of a `NodeProcessor`.  Both stacks grow at the
head: the innermost scope and the current caller are the head elements,
mirroring Python's list `append`/`pop`/`[-1]` at the tail and the
`reversed(...)` lookup order. -/
structure ProcState where
  scopeStack : List (List (String × NodeID))
  callerStack : List NodeID
deriving Repr

/-- A fresh `NodeProcessor`'s private state: one empty root scope, empty
caller stack.  `CPGFileBuilder` passes a `prebound_symbols=` keyword to the
`NodeProcessor` constructor, but `NodeProcessor` (a pydantic `BaseModel`
with the default extra-keyword policy) declares no such field, so the
keyword is discarded and the initial state never contains the pre-bound
symbols. -/
def initState : ProcState :=
  ⟨[[]], []⟩

/-- `NodeProcessor.__normalize_name`: `" ".join(raw.split())`. -/
def normalize_name (raw : String) : String :=
  pyJoin " " (pyWords raw)

/-- `NodeProcessor.__push_scope`. -/
def push_scope (st : ProcState) : ProcState :=
  { st with scopeStack := [] :: st.scopeStack }

/-- `NodeProcessor.__pop_scope`: no-op when only the root scope remains. -/
def pop_scope (st : ProcState) : ProcState :=
  match st.scopeStack with
  | s :: rest => if rest.isEmpty then ⟨s :: rest, st.callerStack⟩ else ⟨rest, st.callerStack⟩
  | [] => st

/-- `NodeProcessor.__push_caller`. -/
def push_caller (st : ProcState) (nodeId : NodeID) : ProcState :=
  { st with callerStack := nodeId :: st.callerStack }

/-- `NodeProcessor.__pop_caller`: no-op on an empty stack. -/
def pop_caller (st : ProcState) : ProcState :=
  { st with callerStack := st.callerStack.tail }

/-- `NodeProcessor.__current_caller_id`. -/
def current_caller_id (st : ProcState) : Option NodeID :=
  st.callerStack.head?

/-- `NodeProcessor.__bind_symbol`: skip falsy (empty) normalized names, else
insert into the innermost scope. -/
def bind_symbol (st : ProcState) (name : String) (nodeId : NodeID) : ProcState :=
  let normalized := normalize_name name
  if normalized = "" then st
  else
    match st.scopeStack with
    | s :: rest => ⟨pyDictSet s normalized nodeId :: rest, st.callerStack⟩
    | [] => st

/-- Innermost-to-outermost lookup for `__resolve_symbol`; a falsy (empty)
binding is skipped, as by Python's `if node_id:`. -/
def resolveInScopes (scopes : List (List (String × NodeID))) (normalized : String) :
    Option NodeID :=
  match scopes with
  | [] => none
  | s :: rest =>
    match pyDictGet s normalized with
    | some v => if v = "" then resolveInScopes rest normalized else some v
    | none => resolveInScopes rest normalized

/-- `NodeProcessor.__resolve_symbol`. -/
def resolve_symbol (st : ProcState) (name : String) : Option NodeID :=
  resolveInScopes st.scopeStack (normalize_name name)

/-- `NodeProcessor.__get_snippet`: `source[start_byte:end_byte]` decoded
(ASCII sources: bytes are chars). -/
def get_snippet (ctx : ProcCtx) (node : TSNode) : String :=
  ⟨(ctx.source.drop node.startByte).take (node.endByte - node.startByte)⟩

/-- `NodeProcessor.__get_node_id`:
`NodeID.create(type_, module_name, str(self.path), node.start_byte)`. -/
def get_node_id (ctx : ProcCtx) (type_ : NodeType) (name : String) (node : TSNode) :
    NodeID :=
  NodeID.create type_.str name ctx.path node.startByte

/-! ## NodeProcessor: pure tree iterators -/

mutual
/-- `NodeProcessor.__iter_identifiers`: all identifier nodes of a subtree in
preorder. -/
def iter_identifiers (n : TSNode) : List TSNode :=
  match n with
  | .mk t nm sb eb sr er ch =>
    (if t = "identifier" then [TSNode.mk t nm sb eb sr er ch] else [])
      ++ iterIdentifiersCh ch

def iterIdentifiersCh : TSChildren → List TSNode
  | .nil => []
  | .cons _ c rest => iter_identifiers c ++ iterIdentifiersCh rest
end

mutual
/-- `NodeProcessor.__iter_source_atoms`: atomic value sources
(`(kind, normalized text, node)`); identifiers and attributes are leaves, a
call is yielded and then its children other than the callee are recursed
into. -/
def iter_source_atoms (ctx : ProcCtx) (n : TSNode) :
    List (String × String × TSNode) :=
  match n with
  | .mk t nm sb eb sr er ch =>
    let n' := TSNode.mk t nm sb eb sr er ch
    if t = "identifier" then
      [("identifier", normalize_name (get_snippet ctx n'), n')]
    else if t = "attribute" then
      [("attribute", normalize_name (get_snippet ctx n'), n')]
    else if t = "call" then
      ("call", normalize_name (get_snippet ctx n'), n')
        :: iterSourceAtomsSkip ctx (n'.childByFieldName "function") ch
    else
      iterSourceAtomsCh ctx ch

/-- The child loop of the `call` branch: skip the callee child, recurse into
the rest. -/
def iterSourceAtomsSkip (ctx : ProcCtx) (callee : Option TSNode) :
    TSChildren → List (String × String × TSNode)
  | .nil => []
  | .cons _ c rest =>
    (match callee with
     | some f => if tsEq c f then [] else iter_source_atoms ctx c
     | none => iter_source_atoms ctx c)
      ++ iterSourceAtomsSkip ctx callee rest

def iterSourceAtomsCh (ctx : ProcCtx) :
    TSChildren → List (String × String × TSNode)
  | .nil => []
  | .cons _ c rest => iter_source_atoms ctx c ++ iterSourceAtomsCh ctx rest
end

mutual
/-- `NodeProcessor.__iter_argument_atoms`: argument-level sources of a call;
nested calls are atomic, `keyword_argument` contributes its `value` field. -/
def iter_argument_atoms (ctx : ProcCtx) (n : TSNode) :
    List (String × String × TSNode) :=
  match n with
  | .mk t nm sb eb sr er ch =>
    let n' := TSNode.mk t nm sb eb sr er ch
    if t = "keyword_argument" then
      iterArgumentAtomsVal ctx ch
    else if t = "identifier" then
      [("identifier", normalize_name (get_snippet ctx n'), n')]
    else if t = "attribute" then
      [("attribute", normalize_name (get_snippet ctx n'), n')]
    else if t = "call" then
      [("call", normalize_name (get_snippet ctx n'), n')]
    else
      iterArgumentAtomsCh ctx ch

/-- The `keyword_argument` branch of `__iter_argument_atoms`: recurse into the
`value` field child (the first child tagged `value`), or yield nothing. -/
def iterArgumentAtomsVal (ctx : ProcCtx) :
    TSChildren → List (String × String × TSNode)
  | .nil => []
  | .cons tag c rest =>
    if tag = some "value" then iter_argument_atoms ctx c
    else iterArgumentAtomsVal ctx rest

def iterArgumentAtomsCh (ctx : ProcCtx) :
    TSChildren → List (String × String × TSNode)
  | .nil => []
  | .cons _ c rest => iter_argument_atoms ctx c ++ iterArgumentAtomsCh ctx rest
end

mutual
/-- `NodeProcessor.__iter_assignment_targets`: identifiers, subscripts and
attributes are atomic named targets; other shapes recurse (destructuring). -/
def iter_assignment_targets (ctx : ProcCtx) (n : TSNode) :
    List (String × TSNode) :=
  match n with
  | .mk t nm sb eb sr er ch =>
    let n' := TSNode.mk t nm sb eb sr er ch
    if t = "identifier" || t = "subscript" then
      [(normalize_name (get_snippet ctx n'), n')]
    else if t = "attribute" then
      [(normalize_name (get_snippet ctx n'), n')]
    else
      iterAssignmentTargetsCh ctx ch

def iterAssignmentTargetsCh (ctx : ProcCtx) :
    TSChildren → List (String × TSNode)
  | .nil => []
  | .cons _ c rest =>
    iter_assignment_targets ctx c ++ iterAssignmentTargetsCh ctx rest
end

mutual
/-- Models tree-sitter's `node.parent` for a node known to live strictly below
`root`: the unique descendant of `root` having the target among its
children. -/
def findParent (root target : TSNode) : Option TSNode :=
  match root with
  | .mk t nm sb eb sr er ch =>
    if childrenContain ch target then some (TSNode.mk t nm sb eb sr er ch)
    else findParentCh ch target

def childrenContain : TSChildren → TSNode → Bool
  | .nil, _ => false
  | .cons _ c rest, target => tsEq c target || childrenContain rest target

def findParentCh : TSChildren → TSNode → Option TSNode
  | .nil, _ => none
  | .cons _ c rest, target =>
    match findParent c target with
    | some p => some p
    | none => findParentCh rest target
end

/-! ## NodeProcessor: non-recursive builder helpers -/

/-- The `ProcessableNodeTypes` enum values of `node_processor.py`. -/
def processableNodeTypes : List String :=
  ["function_definition", "class_definition", "import_statement",
   "import_from_statement", "call", "block", "assignment",
   "expression_statement"]

/-- `NodeProcessor.__is_top_level_statement`, for a direct child of the module
node (the only position the source queries, so `node.parent.type ==
"module"` holds by construction). -/
def is_top_level_statement (child : TSNode) : Bool :=
  child.named &&
    !(["module", "function_definition", "class_definition", "import_statement",
       "import_from_statement", "decorated_definition"].contains child.type_)

/-- The accumulator loop of `__iter_top_level_blocks`. -/
def iterTopLevelBlocksAux :
    List TSNode → List (List TSNode) → List TSNode → List (List TSNode)
  | [], blocks, current =>
    if current.isEmpty then blocks else blocks ++ [current]
  | c :: rest, blocks, current =>
    if is_top_level_statement c then iterTopLevelBlocksAux rest blocks (current ++ [c])
    else if current.isEmpty then iterTopLevelBlocksAux rest blocks []
    else iterTopLevelBlocksAux rest (blocks ++ [current]) []

/-- `NodeProcessor.__iter_top_level_blocks`: maximal runs of consecutive
top-level plain statements among the module's children. -/
def iter_top_level_blocks (moduleNode : TSNode) : List (List TSNode) :=
  iterTopLevelBlocksAux moduleNode.childNodes [] []

/-- A placeholder tree node; never reached (the source indexes `nodes[0]` /
`nodes[-1]` only on non-empty block lists). -/
def dummyTSNode : TSNode :=
  tsNode "" false 0 0 0 0 []

/-- `NodeProcessor.__top_level_block_name`: the stripped source line of the
block's first node, normalized (with the snippet's first line as fallback
for an out-of-range line index). -/
def top_level_block_name (ctx : ProcCtx) (nodes : List TSNode) : String :=
  let firstNode := nodes.headD dummyTSNode
  let lineIndex := firstNode.startRow
  match ctx.lines.get? lineIndex with
  | some line => normalize_name (pyStrip line)
  | none =>
    let snippet := get_snippet ctx firstNode
    let firstLine := (pySplitlines snippet).headD ""
    normalize_name (pyStrip firstLine)

/-- `NodeProcessor.__create_code_block_node`. -/
def create_code_block_node (ctx : ProcCtx) (nodes : List TSNode) : CodeBlockNode :=
  let firstNode := nodes.headD dummyTSNode
  let lastNode := nodes.getLastD dummyTSNode
  let blockName := top_level_block_name ctx nodes
  let nodeId := NodeID.create "code_block" blockName ctx.path firstNode.startByte
  { identifier := nodeId
    lineStart := firstNode.startRow + 1
    lineEnd := lastNode.endRow + 1
    filePath := ctx.path }

/-- `NodeProcessor.__register_top_level_symbols`: bind every top-level
function and class name (with its would-be NodeID) before traversal. -/
def register_top_level_symbols (ctx : ProcCtx) (st : ProcState)
    (moduleNode : TSNode) : ProcState :=
  moduleNode.childNodes.foldl
    (fun st child =>
      if child.type_ = "function_definition" || child.type_ = "class_definition" then
        match child.childByFieldName "name" with
        | none => st
        | some nameNode =>
          let name := normalize_name (get_snippet ctx nameNode)
          let nodeType : NodeType :=
            if child.type_ = "function_definition" then .function else .cls
          let nodeId := get_node_id ctx nodeType name child
          bind_symbol st name nodeId
      else st)
    st

/-- `NodeProcessor.__resolve_call_target`: only an identifier callee that
resolves to a `function:`-prefixed NodeID yields a target. -/
def resolve_call_target (ctx : ProcCtx) (st : ProcState) (callNode : TSNode) :
    Option NodeID :=
  match callNode.childByFieldName "function" with
  | none => none
  | some functionNode =>
    if functionNode.type_ = "identifier" then
      let name := normalize_name (get_snippet ctx functionNode)
      match resolve_symbol st name with
      | some resolved =>
        if pyStartswith resolved "function:" then some resolved else none
      | none => none
    else none

/-- `NodeProcessor.__create_call_node`. -/
def create_call_node (ctx : ProcCtx) (callNode : TSNode)
    (callerId calleeId : NodeID) : CallNode :=
  let snippet := normalize_name (get_snippet ctx callNode)
  let callId := NodeID.create "call" snippet ctx.path callNode.startByte
  { identifier := callId
    callerId := callerId
    calleeId := calleeId
    lineStart := callNode.startRow + 1
    lineEnd := callNode.endRow + 1
    filePath := ctx.path }

/-- `NodeProcessor.__add_call_edges`: appends `CallGraphCalls(caller → call,
is_direct=True, call_depth=0)` and `CallGraphCalledBy(call → callee)`. -/
def add_call_edges (edges : List Edge) (callerId callId calleeId : NodeID) :
    List Edge :=
  edges ++ [.callGraphCalls callerId callId true 0,
            .callGraphCalledBy callId calleeId none false]

/-- The order-preserving byte-range dedup loop of
`__collect_parameter_identifiers`. -/
def dedupByRange (idents : List TSNode) : List TSNode :=
  (idents.foldl
    (fun (acc : List (Nat × Nat) × List TSNode) ident =>
      let key := (ident.startByte, ident.endByte)
      if acc.1.contains key then acc else (acc.1 ++ [key], acc.2 ++ [ident]))
    ([], [])).2

/-- `NodeProcessor.__collect_parameter_identifiers`: every identifier node
anywhere below the parameters node (note: including identifiers inside type
annotations), deduplicated by byte range. -/
def collect_parameter_identifiers (parametersNode : Option TSNode) :
    List TSNode :=
  match parametersNode with
  | none => []
  | some p => dedupByRange (p.childNodes.map iter_identifiers).flatten

/-- `NodeProcessor.__create_variable_node`. -/
def create_variable_node (ctx : ProcCtx) (kind name : String) (node : TSNode)
    (typeHint : String) : VariableNode :=
  let normalizedName := normalize_name name
  let nodeId := NodeID.create kind normalizedName ctx.path node.startByte
  { identifier := nodeId
    name := normalizedName
    typeHint := typeHint
    lineStart := node.startRow + 1
    lineEnd := node.endRow + 1
    filePath := ctx.path }

/-- `NodeProcessor.__get_or_create_defined_variable`: reuse a truthy binding
of the innermost scope, else create and bind a fresh `variable` node. -/
def get_or_create_defined_variable (ctx : ProcCtx) (st : ProcState)
    (name : String) (node : TSNode) (typeHint : String) :
    ProcState × NodeID × Option VariableNode :=
  let normalized := normalize_name name
  let innermost := st.scopeStack.headD []
  match pyDictGet innermost normalized with
  | some existing =>
    if existing = "" then
      let var := create_variable_node ctx "variable" normalized node typeHint
      (bind_symbol st normalized var.identifier, var.identifier, some var)
    else (st, existing, none)
  | none =>
    let var := create_variable_node ctx "variable" normalized node typeHint
    (bind_symbol st normalized var.identifier, var.identifier, some var)

/-! ## NodeProcessor: argument data flow and assignment processing -/

/-- Loop accumulator of `__add_argument_dataflow_edges` (`nodes`, `edges`,
`seen_sources`, `source_ids`). -/
structure ArgFlowAcc where
  nodes : NodeMap
  edges : List Edge
  seenSources : List NodeID
  sourceIds : List NodeID

/-- One iteration of the atom loop in `__add_argument_dataflow_edges`. -/
def argFlowStep (ctx : ProcCtx) (st : ProcState) (callerId : NodeID)
    (acc : ArgFlowAcc) (atom : String × String × TSNode) : ArgFlowAcc :=
  let (kind, text, node) := atom
  if text = "" then acc
  else if kind = "identifier" || kind = "attribute" then
    match resolve_symbol st text with
    | some resolved =>
      if acc.seenSources.contains resolved then acc
      else { acc with sourceIds := acc.sourceIds ++ [resolved]
                      seenSources := acc.seenSources ++ [resolved] }
    | none =>
      let ref := create_variable_node ctx "variable_ref" text node ""
      if acc.seenSources.contains ref.identifier then acc
      else
        { acc with
          nodes := pyDictSet acc.nodes ref.identifier (.var ref)
          sourceIds := acc.sourceIds ++ [ref.identifier]
          seenSources := acc.seenSources ++ [ref.identifier] }
  else if kind = "call" then
    match resolve_call_target ctx st node with
    | none => acc  -- __warn_unresolved_call: log only
    | some nestedTargetId =>
      let nestedCallNode := create_call_node ctx node callerId nestedTargetId
      let acc :=
        if pyDictContains acc.nodes nestedCallNode.identifier then acc
        else
          { acc with
            nodes := pyDictSet acc.nodes nestedCallNode.identifier
                (.call nestedCallNode)
            edges := add_call_edges acc.edges callerId nestedCallNode.identifier
                nestedTargetId }
      if acc.seenSources.contains nestedCallNode.identifier then acc
      else
        { acc with
          sourceIds := acc.sourceIds ++ [nestedCallNode.identifier]
          seenSources := acc.seenSources ++ [nestedCallNode.identifier] }
  else acc

/-- `NodeProcessor.__add_argument_dataflow_edges`: collect argument atoms of
the call's `arguments` child and append a `DataFlowFlowsTo(source →
call)` edge per distinct source. -/
def add_argument_dataflow_edges (ctx : ProcCtx) (st : ProcState)
    (callTsNode : TSNode) (callNodeId callerId : NodeID)
    (nodes : NodeMap) (edges : List Edge) : NodeMap × List Edge :=
  match callTsNode.childByFieldName "arguments" with
  | none => (nodes, edges)
  | some argumentsNode =>
    let acc := (iter_argument_atoms ctx argumentsNode).foldl
      (argFlowStep ctx st callerId) ⟨nodes, edges, [], []⟩
    (acc.nodes,
     acc.edges ++ acc.sourceIds.map (fun srcId => .dataFlowFlowsTo srcId callNodeId))

/-- Loop accumulator of the source-atom scan in `_process_assignment`. -/
structure AssignAcc where
  nodes : NodeMap
  edges : List Edge
  sourceIds : List NodeID
  seenSourceIds : List NodeID

/-- One iteration of the right-hand-side atom loop in `_process_assignment`. -/
def assignAtomStep (ctx : ProcCtx) (st : ProcState)
    (acc : AssignAcc) (atom : String × String × TSNode) : AssignAcc :=
  let (kind, text, node) := atom
  if text = "" then acc
  else if kind = "identifier" || kind = "attribute" then
    match resolve_symbol st text with
    | some resolved =>
      if acc.seenSourceIds.contains resolved then acc
      else { acc with sourceIds := acc.sourceIds ++ [resolved]
                      seenSourceIds := acc.seenSourceIds ++ [resolved] }
    | none =>
      let ref := create_variable_node ctx "variable_ref" text node ""
      if acc.seenSourceIds.contains ref.identifier then acc
      else
        { acc with
          nodes := pyDictSet acc.nodes ref.identifier (.var ref)
          sourceIds := acc.sourceIds ++ [ref.identifier]
          seenSourceIds := acc.seenSourceIds ++ [ref.identifier] }
  else if kind = "call" then
    match current_caller_id st with
    | none => acc
    | some callerId =>
      match resolve_call_target ctx st node with
      | none => acc  -- __warn_unresolved_call: log only
      | some targetId =>
        let callNode := create_call_node ctx node callerId targetId
        let acc :=
          if acc.seenSourceIds.contains callNode.identifier then acc
          else
            { acc with
              nodes := pyDictSet acc.nodes callNode.identifier (.call callNode)
              sourceIds := acc.sourceIds ++ [callNode.identifier]
              seenSourceIds := acc.seenSourceIds ++ [callNode.identifier] }
        let acc :=
          { acc with
            edges := add_call_edges acc.edges callerId callNode.identifier
                targetId }
        let (nodes', edges') := add_argument_dataflow_edges ctx st node
            callNode.identifier callerId acc.nodes acc.edges
        { acc with nodes := nodes', edges := edges' }
  else acc

/-- The augmented-assignment extra loop of `_process_assignment`: each
target's pre-existing value becomes an implicit extra source. -/
def augmentedSourcesStep (ctx : ProcCtx) (st : ProcState) (assignNode : TSNode)
    (acc : AssignAcc) (target : String × TSNode) : AssignAcc :=
  let targetName := target.1
  match resolve_symbol st targetName with
  | some resolvedPrev =>
    if acc.seenSourceIds.contains resolvedPrev then
      -- the resolved binding is already a seen source: Python falls through
      -- to the variable_ref branch below
      let srcPrev := create_variable_node ctx "variable_ref" targetName assignNode ""
      if acc.seenSourceIds.contains srcPrev.identifier then acc
      else
        { acc with
          nodes := pyDictSet acc.nodes srcPrev.identifier (.var srcPrev)
          sourceIds := acc.sourceIds ++ [srcPrev.identifier]
          seenSourceIds := acc.seenSourceIds ++ [srcPrev.identifier] }
    else
      { acc with sourceIds := acc.sourceIds ++ [resolvedPrev]
                 seenSourceIds := acc.seenSourceIds ++ [resolvedPrev] }
  | none =>
    let srcPrev := create_variable_node ctx "variable_ref" targetName assignNode ""
    if acc.seenSourceIds.contains srcPrev.identifier then acc
    else
      { acc with
        nodes := pyDictSet acc.nodes srcPrev.identifier (.var srcPrev)
        sourceIds := acc.sourceIds ++ [srcPrev.identifier]
        seenSourceIds := acc.seenSourceIds ++ [srcPrev.identifier] }

/-- The final target loop of `_process_assignment`: get-or-create each target
variable (binding persists across targets) and emit one
`DataFlowDefinedBy(source → target, operation=assignment)` per source. -/
def assignTargetsStep (ctx : ProcCtx) (typeHint : String)
    (sourceIds : List NodeID)
    (acc : ProcState × NodeMap × List Edge) (target : String × TSNode) :
    ProcState × NodeMap × List Edge :=
  let (st, nodes, edges) := acc
  let (st', dstId, created) :=
    get_or_create_defined_variable ctx st target.1 target.2 typeHint
  let nodes' :=
    match created with
    | some var => pyDictSet nodes var.identifier (.var var)
    | none => nodes
  let edges' := edges ++ sourceIds.map
    (fun srcId => .dataFlowDefinedBy srcId dstId .assignment)
  (st', nodes', edges')

/-- `NodeProcessor._process_assignment`.  (It performs no recursive
`process` call, so it sits outside the fueled mutual block.) -/
def process_assignment (ctx : ProcCtx) (st : ProcState) (node : TSNode) :
    ProcState × ParserResult :=
  match node.childByFieldName "left", node.childByFieldName "right" with
  | some left, some right =>
    let typeHint :=
      match node.childByFieldName "type" with
      | some ann => normalize_name (get_snippet ctx ann)
      | none => ""
    let targets := iter_assignment_targets ctx left
    if targets.isEmpty then (st, ([], []))
    else
      let acc := (iter_source_atoms ctx right).foldl
        (assignAtomStep ctx st) ⟨[], [], [], []⟩
      let acc :=
        if node.type_ = "augmented_assignment" then
          targets.foldl (augmentedSourcesStep ctx st node) acc
        else acc
      let (st', nodes', edges') := targets.foldl
        (assignTargetsStep ctx typeHint acc.sourceIds)
        (st, acc.nodes, acc.edges)
      (st', (nodes', edges'))
  | _, _ => (st, ([], []))

/-! ## NodeProcessor.process — the recursive tree walk -/

/-- Outcomes of a traversal step: the `ValueError` the source can raise, or
fuel exhaustion (an artifact of embedding unbounded recursion). -/
inductive PErr : Type where
  | valueError (msg : String)
  | outOfFuel
deriving DecidableEq, Repr

/-- The result of a traversal step: error, or updated private state plus the
`(nodes, edges)` pair the Python method returns. -/
abbrev ProcOut := Except PErr (ProcState × ParserResult)

/-- One iteration of the parameter loop in `_process_function`: create and
bind the parameter's `VariableNode` (type hint read from the `type` field
of the identifier's parent) and emit
`DataFlowDefinedBy(function → parameter, operation=parameter)`. -/
def processParamStep (ctx : ProcCtx) (parametersNode : Option TSNode)
    (functionId : NodeID) (acc : ProcState × NodeMap × List Edge)
    (param : TSNode) : ProcState × NodeMap × List Edge :=
  let (st, nodes, edges) := acc
  let paramName := normalize_name (get_snippet ctx param)
  let paramType :=
    match parametersNode with
    | none => ""
    | some pn =>
      match findParent pn param with
      | none => ""
      | some parent =>
        match parent.childByFieldName "type" with
        | some ann => normalize_name (get_snippet ctx ann)
        | none => ""
  let paramVar := create_variable_node ctx "variable" paramName param paramType
  (bind_symbol st paramVar.name paramVar.identifier,
   pyDictSet nodes paramVar.identifier (.var paramVar),
   edges ++ [.dataFlowDefinedBy functionId paramVar.identifier .parameter])

mutual
/-- `NodeProcessor.process`: dispatch on the node's type tag; the fallthrough
recurses into all children.  (The commented-out import branches of the
source record nothing and fall through likewise.) -/
def process (ctx : ProcCtx) : Nat → ProcState → TSNode → Nat → ProcOut
  | 0, _, _, _ => .error .outOfFuel
  | fuel + 1, st, node, blockLevel =>
    if node.type_ = "module" then
      let topLevelBlocks := iter_top_level_blocks node
      let nodes0 := topLevelBlocks.foldl
        (fun m b =>
          let codeBlock := create_code_block_node ctx b
          pyDictSet m codeBlock.identifier (.codeBlock codeBlock)) []
      let st := register_top_level_symbols ctx st node
      match processNodeList ctx fuel st
          (node.childNodes.filter (fun c => !is_top_level_statement c))
          blockLevel nodes0 [] with
      | .error e => .error e
      | .ok (st, (nodes, edges)) =>
        processBlocks ctx fuel st topLevelBlocks nodes edges
    else if node.type_ = "function_definition" then
      process_function ctx fuel st node
    else if node.type_ = "class_definition" then
      match process_class ctx fuel st node with
      | .error e => .error e
      | .ok (st, classNode, nodes, edges) =>
        let edges := edges ++ nodes.map
          (fun kv => Edge.dataFlowDefinedBy classNode.identifier kv.1 .assignment)
        .ok (st, (pyDictSet nodes classNode.identifier (.cls classNode), edges))
    else if node.type_ = "assignment" || node.type_ = "augmented_assignment"
        || node.type_ = "annotated_assignment" then
      .ok (process_assignment ctx st node)
    else if node.type_ = "call" then
      process_call ctx fuel st node
    else
      processNodeList ctx fuel st node.childNodes blockLevel [] []

/-- A sequential `for child in …: process(child); nodes.update(…);
edges.extend(…)` loop. -/
def processNodeList (ctx : ProcCtx) :
    Nat → ProcState → List TSNode → Nat → NodeMap → List Edge → ProcOut
  | 0, _, _, _, _, _ => .error .outOfFuel
  | _ + 1, st, [], _, accNodes, accEdges => .ok (st, (accNodes, accEdges))
  | fuel + 1, st, n :: rest, blockLevel, accNodes, accEdges =>
    match process ctx fuel st n blockLevel with
    | .error e => .error e
    | .ok (st, (childNodes, childEdges)) =>
      processNodeList ctx fuel st rest blockLevel
        (pyDictUpdate accNodes childNodes) (accEdges ++ childEdges)

/-- The final loop of the module branch: re-enter each top-level block with
the caller stack pointing at the block's code-block identifier. -/
def processBlocks (ctx : ProcCtx) :
    Nat → ProcState → List (List TSNode) → NodeMap → List Edge → ProcOut
  | 0, _, _, _, _ => .error .outOfFuel
  | _ + 1, st, [], accNodes, accEdges => .ok (st, (accNodes, accEdges))
  | fuel + 1, st, block :: rest, accNodes, accEdges =>
    let codeBlockId := NodeID.create "code_block" (top_level_block_name ctx block)
      ctx.path (block.headD dummyTSNode).startByte
    let st := push_caller st codeBlockId
    match processNodeList ctx fuel st block 1 accNodes accEdges with
    | .error e => .error e
    | .ok (st, (accNodes, accEdges)) =>
      processBlocks ctx fuel (pop_caller st) rest accNodes accEdges

/-- `NodeProcessor._process_function`.  A missing `name` field returns the
empty result; otherwise the function node is created, its name bound in
the enclosing scope, a fresh scope and caller frame pushed, parameters
processed, the body children processed, and both frames popped. -/
def process_function (ctx : ProcCtx) : Nat → ProcState → TSNode → ProcOut
  | 0, _, _ => .error .outOfFuel
  | fuel + 1, st, node =>
    match node.childByFieldName "name" with
    | none => .ok (st, ([], []))
    | some nameNode =>
      let name := normalize_name (get_snippet ctx nameNode)
      let nodeId := get_node_id ctx .function name node
      let functionNode : FunctionNode :=
        ⟨nodeId, name, node.startRow + 1, node.endRow + 1, ctx.path⟩
      let nodes := pyDictSet [] nodeId (.func functionNode)
      let st := bind_symbol st name nodeId
      let st := push_caller (push_scope st) nodeId
      let parametersNode := node.childByFieldName "parameters"
      let params := collect_parameter_identifiers parametersNode
      let (st, nodes, edges) := params.foldl
        (processParamStep ctx parametersNode nodeId) (st, nodes, [])
      match node.childByFieldName "body" with
      | some body =>
        match processNodeList ctx fuel st body.childNodes 1 nodes edges with
        | .error e => .error e
        | .ok (st, res) => .ok (pop_scope (pop_caller st), res)
      | none => .ok (pop_scope (pop_caller st), (nodes, edges))

/-- `NodeProcessor._process_call`: skip silently without a caller frame, warn
and skip on an unresolved callee, else create the `CallNode`, both
call-graph edges and the argument data-flow edges, then recurse into the
children. -/
def process_call (ctx : ProcCtx) : Nat → ProcState → TSNode → ProcOut
  | 0, _, _ => .error .outOfFuel
  | fuel + 1, st, node =>
    match current_caller_id st with
    | none => .ok (st, ([], []))
    | some callerId =>
      match resolve_call_target ctx st node with
      | none => .ok (st, ([], []))  -- __warn_unresolved_call: log only
      | some calleeId =>
        let callNode := create_call_node ctx node callerId calleeId
        let nodes := pyDictSet [] callNode.identifier (.call callNode)
        let edges := add_call_edges [] callerId callNode.identifier calleeId
        let (nodes, edges) := add_argument_dataflow_edges ctx st node
          callNode.identifier callerId nodes edges
        processNodeList ctx fuel st node.childNodes 1 nodes edges

/-- `NodeProcessor._process_class`: a missing `name` field raises
`ValueError`; otherwise the class node spans from its name to the end of
its superclass list, the class name is bound, and only children whose type
is in `ProcessableNodeTypes` are processed. -/
def process_class (ctx : ProcCtx) :
    Nat → ProcState → TSNode →
      Except PErr (ProcState × ClassNode × NodeMap × List Edge)
  | 0, _, _ => .error .outOfFuel
  | fuel + 1, st, node =>
    match node.childByFieldName "name" with
    | none =>
      .error (.valueError
        ("Class node missing name field. Node Byte Range: ("
          ++ Nat.repr node.startByte ++ ", " ++ Nat.repr node.endByte
          ++ "), Path: " ++ ctx.path))
    | some nameNode =>
      let name := get_snippet ctx nameNode
      let nodeId := get_node_id ctx .cls name node
      let lineStart := nameNode.startRow + 1
      let lineEnd :=
        match node.childByFieldName "superclasses" with
        | some superclassesNode => superclassesNode.endRow + 1
        | none => nameNode.endRow + 1
      let classNode : ClassNode := ⟨nodeId, name, ctx.path, lineStart, lineEnd⟩
      let st := bind_symbol st (normalize_name name) nodeId
      match processNodeList ctx fuel st
          (node.childNodes.filter (fun c => processableNodeTypes.contains c.type_))
          1 [] [] with
      | .error e => .error e
      | .ok (st, (nodes, edges)) => .ok (st, classNode, nodes, edges)
end

/-! ## cpg_builder.py — file builder, merge loop, import resolution -/

/-- The inputs `CPGFileBuilder` derives for one file: its display path
(relative to the project root), source text and parse tree. -/
structure PyFile where
  path : String
  source : String
  tree : TSNode

/-- The `ProcCtx` a `CPGFileBuilder` hands its `NodeProcessor`. -/
def mkProcCtx (f : PyFile) : ProcCtx :=
  ⟨f.path, f.source.data, pySplitlines f.source⟩

/-- `CPGFileBuilder.build`: run the processor on the root node.  The builder
forwards `prebound_symbols` to the `NodeProcessor` constructor, but
`NodeProcessor` declares no such field, so pydantic discards the keyword
and the processor starts from `initState` regardless (see `initState`). -/
def CPGFileBuilder.build (f : PyFile) (preboundSymbols : List (String × NodeID))
    (fuel : Nat) : Except PErr ParserResult :=
  let _ := preboundSymbols  -- dropped by the NodeProcessor constructor
  (process (mkProcCtx f) fuel initState f.tree 0).map Prod.snd

/-- The node-merge loop of `CPGDirectoryBuilder.build`: an existing entry with
different content raises; otherwise the entry is (re)stored. -/
def mergeFileNodes (filePath : String) :
    NodeMap → NodeMap → Except String NodeMap
  | merged, [] => .ok merged
  | merged, (nodeId, node) :: rest =>
    match pyDictGet merged nodeId with
    | some existing =>
      if existing ≠ node then
        .error ("Duplicate node id " ++ nodeId
          ++ " encountered while parsing " ++ filePath)
      else mergeFileNodes filePath (pyDictSet merged nodeId node) rest
    | none => mergeFileNodes filePath (pyDictSet merged nodeId node) rest

/-- The per-file loop of `CPGDirectoryBuilder.build` under the default
`on_error="raise"` policy: build each file (with whatever pre-binding map
the linking phase computed for it), merge its nodes, extend the edges. -/
def buildFilesGo (fuel : Nat) :
    List (PyFile × List (String × NodeID)) → NodeMap → List Edge →
      Except PErr (NodeMap × List Edge)
  | [], mergedNodes, mergedEdges => .ok (mergedNodes, mergedEdges)
  | (f, prebound) :: rest, mergedNodes, mergedEdges =>
    match CPGFileBuilder.build f prebound fuel with
    | .error e => .error e
    | .ok (nodes, edges) =>
      match mergeFileNodes f.path mergedNodes nodes with
      | .error msg => .error (.valueError msg)
      | .ok merged => buildFilesGo fuel rest merged (mergedEdges ++ edges)

/-- `CPGDirectoryBuilder.build` restricted to its build-and-merge phase, over
an already-discovered (sorted) file list with per-file pre-binding maps. -/
def CPGDirectoryBuilder.buildFiles
    (files : List (PyFile × List (String × NodeID))) (fuel : Nat) :
    Except PErr (NodeMap × List Edge) :=
  buildFilesGo fuel files [] []

/-- `CPGDirectoryBuilder._resolve_import_from_module`: absolute for level 0,
current package for level 1, `N−1` packages up for level `N`. -/
def resolve_import_from_module (currentModule : String) (level : Int)
    (module : Option String) : Option String :=
  if level < 0 then none
  else
    let currentPackage :=
      if pyContainsDot currentModule then pyRsplitDotHead currentModule else ""
    if level = 0 then module
    else
      let parts := (pySplitDot currentPackage).filter (· ≠ "")
      let up := (level - 1).toNat
      let parts :=
        if up > parts.length then []
        else if up ≠ 0 then parts.take (parts.length - up)
        else parts
      let parts :=
        match module with
        | some m => if m ≠ "" then parts ++ (pySplitDot m).filter (· ≠ "") else parts
        | none => parts
      some (if !parts.isEmpty then pyJoin "." parts
            else match module with
                 | some m => m
                 | none => "")

/-! ## Concrete inputs

Hand-built tree-sitter-python CSTs (type tags, byte offsets and rows as the
grammar produces them for the ASCII sources given alongside). -/

/-- CST of `vars.py` = `"a = 1\nb = a\nc = a + b\n"`. -/
def varsTree : TSNode :=
  tsNode "module" true 0 22 0 3 [
    (none, tsNode "expression_statement" true 0 5 0 0 [
      (none, tsNode "assignment" true 0 5 0 0 [
        (some "left", tsNode "identifier" true 0 1 0 0 []),
        (none, tsNode "=" false 2 3 0 0 []),
        (some "right", tsNode "integer" true 4 5 0 0 [])])]),
    (none, tsNode "expression_statement" true 6 11 1 1 [
      (none, tsNode "assignment" true 6 11 1 1 [
        (some "left", tsNode "identifier" true 6 7 1 1 []),
        (none, tsNode "=" false 8 9 1 1 []),
        (some "right", tsNode "identifier" true 10 11 1 1 [])])]),
    (none, tsNode "expression_statement" true 12 21 2 2 [
      (none, tsNode "assignment" true 12 21 2 2 [
        (some "left", tsNode "identifier" true 12 13 2 2 []),
        (none, tsNode "=" false 14 15 2 2 []),
        (some "right", tsNode "binary_operator" true 16 21 2 2 [
          (some "left", tsNode "identifier" true 16 17 2 2 []),
          (some "operator", tsNode "+" false 18 19 2 2 []),
          (some "right", tsNode "identifier" true 20 21 2 2 [])])])])]

/-- `vars.py`. -/
def varsFile : PyFile :=
  ⟨"vars.py", "a = 1\nb = a\nc = a + b\n", varsTree⟩

/-- CST of `func.py` = `"def f(x: int, y):\n    pass\n"`. -/
def funcTree : TSNode :=
  tsNode "module" true 0 27 0 2 [
    (none, tsNode "function_definition" true 0 26 0 1 [
      (none, tsNode "def" false 0 3 0 0 []),
      (some "name", tsNode "identifier" true 4 5 0 0 []),
      (some "parameters", tsNode "parameters" true 5 16 0 0 [
        (none, tsNode "(" false 5 6 0 0 []),
        (none, tsNode "typed_parameter" true 6 12 0 0 [
          (none, tsNode "identifier" true 6 7 0 0 []),
          (none, tsNode ":" false 7 8 0 0 []),
          (some "type", tsNode "type" true 9 12 0 0 [
            (none, tsNode "identifier" true 9 12 0 0 [])])]),
        (none, tsNode "," false 12 13 0 0 []),
        (none, tsNode "identifier" true 14 15 0 0 []),
        (none, tsNode ")" false 15 16 0 0 [])]),
      (none, tsNode ":" false 16 17 0 0 []),
      (some "body", tsNode "block" true 22 26 1 1 [
        (none, tsNode "pass_statement" true 22 26 1 1 [
          (none, tsNode "pass" false 22 26 1 1 [])])])])]

/-- `func.py`. -/
def funcFile : PyFile :=
  ⟨"func.py", "def f(x: int, y):\n    pass\n", funcTree⟩

/-- CST of `cls.py` = `"class A:\n    pass\nA()\n"`. -/
def clsTree : TSNode :=
  tsNode "module" true 0 22 0 3 [
    (none, tsNode "class_definition" true 0 17 0 1 [
      (none, tsNode "class" false 0 5 0 0 []),
      (some "name", tsNode "identifier" true 6 7 0 0 []),
      (none, tsNode ":" false 7 8 0 0 []),
      (some "body", tsNode "block" true 13 17 1 1 [
        (none, tsNode "pass_statement" true 13 17 1 1 [
          (none, tsNode "pass" false 13 17 1 1 [])])])]),
    (none, tsNode "expression_statement" true 18 21 2 2 [
      (none, tsNode "call" true 18 21 2 2 [
        (some "function", tsNode "identifier" true 18 19 2 2 []),
        (some "arguments", tsNode "argument_list" true 19 21 2 2 [
          (none, tsNode "(" false 19 20 2 2 []),
          (none, tsNode ")" false 20 21 2 2 [])])])])]

/-- `cls.py`. -/
def clsFile : PyFile :=
  ⟨"cls.py", "class A:\n    pass\nA()\n", clsTree⟩

/-- CST of `calls.py` = `"def g():\n    pass\nunknown_fn()\ng()\n"`. -/
def callsTree : TSNode :=
  tsNode "module" true 0 35 0 4 [
    (none, tsNode "function_definition" true 0 17 0 1 [
      (none, tsNode "def" false 0 3 0 0 []),
      (some "name", tsNode "identifier" true 4 5 0 0 []),
      (some "parameters", tsNode "parameters" true 5 7 0 0 [
        (none, tsNode "(" false 5 6 0 0 []),
        (none, tsNode ")" false 6 7 0 0 [])]),
      (none, tsNode ":" false 7 8 0 0 []),
      (some "body", tsNode "block" true 13 17 1 1 [
        (none, tsNode "pass_statement" true 13 17 1 1 [
          (none, tsNode "pass" false 13 17 1 1 [])])])]),
    (none, tsNode "expression_statement" true 18 30 2 2 [
      (none, tsNode "call" true 18 30 2 2 [
        (some "function", tsNode "identifier" true 18 28 2 2 []),
        (some "arguments", tsNode "argument_list" true 28 30 2 2 [
          (none, tsNode "(" false 28 29 2 2 []),
          (none, tsNode ")" false 29 30 2 2 [])])])]),
    (none, tsNode "expression_statement" true 31 34 3 3 [
      (none, tsNode "call" true 31 34 3 3 [
        (some "function", tsNode "identifier" true 31 32 3 3 []),
        (some "arguments", tsNode "argument_list" true 32 34 3 3 [
          (none, tsNode "(" false 32 33 3 3 []),
          (none, tsNode ")" false 33 34 3 3 [])])])])]

/-- `calls.py`. -/
def callsFile : PyFile :=
  ⟨"calls.py", "def g():\n    pass\nunknown_fn()\ng()\n", callsTree⟩

/-- CST of `provider.py` =
`"def exported_function():\n    pass\nEXPORTED_CONST = 1\n"`. -/
def providerTree : TSNode :=
  tsNode "module" true 0 53 0 3 [
    (none, tsNode "function_definition" true 0 33 0 1 [
      (none, tsNode "def" false 0 3 0 0 []),
      (some "name", tsNode "identifier" true 4 21 0 0 []),
      (some "parameters", tsNode "parameters" true 21 23 0 0 [
        (none, tsNode "(" false 21 22 0 0 []),
        (none, tsNode ")" false 22 23 0 0 [])]),
      (none, tsNode ":" false 23 24 0 0 []),
      (some "body", tsNode "block" true 29 33 1 1 [
        (none, tsNode "pass_statement" true 29 33 1 1 [
          (none, tsNode "pass" false 29 33 1 1 [])])])]),
    (none, tsNode "expression_statement" true 34 52 2 2 [
      (none, tsNode "assignment" true 34 52 2 2 [
        (some "left", tsNode "identifier" true 34 48 2 2 []),
        (none, tsNode "=" false 49 50 2 2 []),
        (some "right", tsNode "integer" true 51 52 2 2 [])])])]

/-- `provider.py`. -/
def providerFile : PyFile :=
  ⟨"provider.py", "def exported_function():\n    pass\nEXPORTED_CONST = 1\n",
   providerTree⟩

/-- CST of `consumer.py` =
`"from provider import exported_function, EXPORTED_CONST\nexported_function(EXPORTED_CONST)\n"`. -/
def consumerTree : TSNode :=
  tsNode "module" true 0 89 0 2 [
    (none, tsNode "import_from_statement" true 0 54 0 0 [
      (none, tsNode "from" false 0 4 0 0 []),
      (some "module_name", tsNode "dotted_name" true 5 13 0 0 [
        (none, tsNode "identifier" true 5 13 0 0 [])]),
      (none, tsNode "import" false 14 20 0 0 []),
      (some "name", tsNode "dotted_name" true 21 38 0 0 [
        (none, tsNode "identifier" true 21 38 0 0 [])]),
      (none, tsNode "," false 38 39 0 0 []),
      (some "name", tsNode "dotted_name" true 40 54 0 0 [
        (none, tsNode "identifier" true 40 54 0 0 [])])]),
    (none, tsNode "expression_statement" true 55 88 1 1 [
      (none, tsNode "call" true 55 88 1 1 [
        (some "function", tsNode "identifier" true 55 72 1 1 []),
        (some "arguments", tsNode "argument_list" true 72 88 1 1 [
          (none, tsNode "(" false 72 73 1 1 []),
          (none, tsNode "identifier" true 73 87 1 1 []),
          (none, tsNode ")" false 87 88 1 1 [])])])])]

/-- `consumer.py`. -/
def consumerFile : PyFile :=
  ⟨"consumer.py",
   "from provider import exported_function, EXPORTED_CONST\nexported_function(EXPORTED_CONST)\n",
   consumerTree⟩

/-- CST of `method_calls.py` =
`"class A:\n    def print(self):\n        pass\ndef main():\n    a = A(10)\n    a.print()\n"`. -/
def methodCallsTree : TSNode :=
  tsNode "module" true 0 83 0 6 [
    (none, tsNode "class_definition" true 0 42 0 2 [
      (none, tsNode "class" false 0 5 0 0 []),
      (some "name", tsNode "identifier" true 6 7 0 0 []),
      (none, tsNode ":" false 7 8 0 0 []),
      (some "body", tsNode "block" true 13 42 1 2 [
        (none, tsNode "function_definition" true 13 42 1 2 [
          (none, tsNode "def" false 13 16 1 1 []),
          (some "name", tsNode "identifier" true 17 22 1 1 []),
          (some "parameters", tsNode "parameters" true 22 28 1 1 [
            (none, tsNode "(" false 22 23 1 1 []),
            (none, tsNode "identifier" true 23 27 1 1 []),
            (none, tsNode ")" false 27 28 1 1 [])]),
          (none, tsNode ":" false 28 29 1 1 []),
          (some "body", tsNode "block" true 38 42 2 2 [
            (none, tsNode "pass_statement" true 38 42 2 2 [
              (none, tsNode "pass" false 38 42 2 2 [])])])])])]),
    (none, tsNode "function_definition" true 43 82 3 5 [
      (none, tsNode "def" false 43 46 3 3 []),
      (some "name", tsNode "identifier" true 47 51 3 3 []),
      (some "parameters", tsNode "parameters" true 51 53 3 3 [
        (none, tsNode "(" false 51 52 3 3 []),
        (none, tsNode ")" false 52 53 3 3 [])]),
      (none, tsNode ":" false 53 54 3 3 []),
      (some "body", tsNode "block" true 59 82 4 5 [
        (none, tsNode "expression_statement" true 59 68 4 4 [
          (none, tsNode "assignment" true 59 68 4 4 [
            (some "left", tsNode "identifier" true 59 60 4 4 []),
            (none, tsNode "=" false 61 62 4 4 []),
            (some "right", tsNode "call" true 63 68 4 4 [
              (some "function", tsNode "identifier" true 63 64 4 4 []),
              (some "arguments", tsNode "argument_list" true 64 68 4 4 [
                (none, tsNode "(" false 64 65 4 4 []),
                (none, tsNode "integer" true 65 67 4 4 []),
                (none, tsNode ")" false 67 68 4 4 [])])])])]),
        (none, tsNode "expression_statement" true 73 82 5 5 [
          (none, tsNode "call" true 73 82 5 5 [
            (some "function", tsNode "attribute" true 73 80 5 5 [
              (some "object", tsNode "identifier" true 73 74 5 5 []),
              (none, tsNode "." false 74 75 5 5 []),
              (some "attribute", tsNode "identifier" true 75 80 5 5 [])]),
            (some "arguments", tsNode "argument_list" true 80 82 5 5 [
              (none, tsNode "(" false 80 81 5 5 []),
              (none, tsNode ")" false 81 82 5 5 [])])])])])])]

/-- `method_calls.py`. -/
def methodCallsFile : PyFile :=
  ⟨"method_calls.py",
   "class A:\n    def print(self):\n        pass\ndef main():\n    a = A(10)\n    a.print()\n",
   methodCallsTree⟩

/-- A `function_definition` node with no `name` field child (a malformed
tree, as produced by error recovery on invalid input). -/
def fnNoName : TSNode :=
  tsNode "function_definition" true 0 10 0 0 [
    (none, tsNode "def" false 0 3 0 0 [])]

/-- A `class_definition` node with no `name` field child. -/
def classNoName : TSNode :=
  tsNode "class_definition" true 0 12 0 0 [
    (none, tsNode "class" false 0 5 0 0 [])]

/-- A context for the malformed-tree examples. -/
def brokenCtx : ProcCtx :=
  ⟨"broken.py", "def \nclass \n".data, ["def ", "class "]⟩

/-- The `unknown_fn()` call subtree of `calls.py` (an unresolvable callee). -/
def unknownCallTS : TSNode :=
  tsNode "call" true 18 30 2 2 [
    (some "function", tsNode "identifier" true 18 28 2 2 []),
    (some "arguments", tsNode "argument_list" true 28 30 2 2 [
      (none, tsNode "(" false 28 29 2 2 []),
      (none, tsNode ")" false 29 30 2 2 [])])]

/-- The `A()` call subtree of `cls.py` (a constructor call: its callee
resolves to a `class:`-prefixed NodeID). -/
def clsCallTS : TSNode :=
  tsNode "call" true 18 21 2 2 [
    (some "function", tsNode "identifier" true 18 19 2 2 []),
    (some "arguments", tsNode "argument_list" true 19 21 2 2 [
      (none, tsNode "(" false 19 20 2 2 []),
      (none, tsNode ")" false 20 21 2 2 [])])]

/-- A scope state binding `A` to `cls.py`'s class NodeID, as
`__register_top_level_symbols` produces for `cls.py`. -/
def clsBoundState : ProcState :=
  bind_symbol initState "A" (NodeID.create "Class" "A" "cls.py" 0)

/-- The pre-binding map `_prebound_symbols_for_file` computes for
`consumer.py` in the two-file project `{provider.py, consumer.py}`: the
symbol-index phase matches `exported_function` to provider's
`FunctionNode` (id prefix `function:`) and `EXPORTED_CONST` (a top-level
assignment at line 3) to provider's `VariableNode` with `line_start == 3`. -/
def linkPrebound : List (String × NodeID) :=
  [("exported_function", NodeID.create "Function" "exported_function" "provider.py" 0),
   ("EXPORTED_CONST", NodeID.create "variable" "EXPORTED_CONST" "provider.py" 34)]

/-- The two-file project of the cross-file-linking scenario, in the sorted
order `CPGDirectoryBuilder._collect_python_files` produces, paired with the
pre-binding map the linking phase computes for each file. -/
def linkProject : List (PyFile × List (String × NodeID)) :=
  [(consumerFile, linkPrebound), (providerFile, [])]

/-! ## Observers on traversal results (used to state the claims) -/

/-- Whether a traversal step succeeded. -/
def runOk (r : ProcOut) : Bool :=
  match r with
  | .ok _ => true
  | .error _ => false

/-- The edge list of a successful traversal (`[]` on error). -/
def outEdges (r : ProcOut) : List Edge :=
  match r with
  | .ok (_, (_, es)) => es
  | .error _ => []

/-- The node map of a successful traversal (`[]` on error). -/
def outNodes (r : ProcOut) : NodeMap :=
  match r with
  | .ok (_, (ns, _)) => ns
  | .error _ => []

/-- Whether a directory build succeeded. -/
def dirOk (r : Except PErr (NodeMap × List Edge)) : Bool :=
  match r with
  | .ok _ => true
  | .error _ => false

/-- The merged edge list of a successful directory build (`[]` on error). -/
def dirEdges (r : Except PErr (NodeMap × List Edge)) : List Edge :=
  match r with
  | .ok (_, es) => es
  | .error _ => []

/-- The merged node map of a successful directory build (`[]` on error). -/
def dirNodes (r : Except PErr (NodeMap × List Edge)) : NodeMap :=
  match r with
  | .ok (ns, _) => ns
  | .error _ => []

/-- Whether an edge is a `DataFlowDefinedBy` into the given destination. -/
def isDefinedByInto (dst : NodeID) (e : Edge) : Bool :=
  match e with
  | .dataFlowDefinedBy _ d _ => d = dst
  | _ => false

/-- Whether an edge is a `DataFlowDefinedBy` with `operation=parameter`. -/
def isParameterEdge (e : Edge) : Bool :=
  match e with
  | .dataFlowDefinedBy _ _ .parameter => true
  | _ => false

/-- Whether an edge belongs to the call graph
(`CallGraphCalls`/`CallGraphCalledBy`). -/
def isCallGraphEdge (e : Edge) : Bool :=
  match e with
  | .callGraphCalls _ _ _ _ => true
  | .callGraphCalledBy _ _ _ _ => true
  | _ => false

/-- Whether an edge is a `CallGraphCalledBy` into the given callee. -/
def isCalledByInto (callee : NodeID) (e : Edge) : Bool :=
  match e with
  | .callGraphCalledBy _ d _ _ => d = callee
  | _ => false

/-- Whether an edge is a `DataFlowFlowsTo` out of the given source. -/
def isFlowsToFrom (src : NodeID) (e : Edge) : Bool :=
  match e with
  | .dataFlowFlowsTo s _ => s = src
  | _ => false

/-- Whether a stored node is a `CallNode`. -/
def isCallNodeEntry (kv : NodeID × Node) : Bool :=
  match kv.2 with
  | .call _ => true
  | _ => false

/-! ## Decimal digit values (for reasoning about `Nat.repr` in NodeIDs) -/

/-- The numeric value of a decimal digit character. -/
def digitVal (c : Char) : Nat := c.toNat - 48

/-- The number denoted by a list of decimal digit characters (most
significant first), from an accumulator. -/
def digitsVal (a : Nat) (cs : List Char) : Nat :=
  cs.foldl (fun a c => 10 * a + digitVal c) a

/-- The two-file instance of the directory builder's merge: merge the first
file's nodes into the empty map, then the second file's nodes into the
result (the shape `buildFilesGo` produces for a two-file project). -/
def mergeTwoFiles (fp : String) (m1 m2 : NodeMap) : Except String NodeMap :=
  match mergeFileNodes fp [] m1 with
  | .error e => .error e
  | .ok acc => mergeFileNodes fp acc m2

/-! ## Claim theorems -/

/-- C5: processing `a = 1`, `b = a`, `c = a + b` yields exactly two
`DataFlowDefinedBy` edges into `c`'s NodeID — one from `a`'s NodeID and one
from `b`'s NodeID — and the NodeID used for `a` as the source of the `a→b`
edge is the same NodeID (`variable:a@vars.py:0`) used as the source of the
`a→c` edge: the target bound in the innermost scope is reused, never
recreated. -/
theorem scope_correct_identity_reuse :
    runOk (process (mkProcCtx varsFile) 50 initState varsFile.tree 0) = true ∧
    (outEdges (process (mkProcCtx varsFile) 50 initState varsFile.tree 0)).filter
        (isDefinedByInto (NodeID.create "variable" "c" "vars.py" 12)) =
      [.dataFlowDefinedBy (NodeID.create "variable" "a" "vars.py" 0)
          (NodeID.create "variable" "c" "vars.py" 12) .assignment,
       .dataFlowDefinedBy (NodeID.create "variable" "b" "vars.py" 6)
          (NodeID.create "variable" "c" "vars.py" 12) .assignment] ∧
    Edge.dataFlowDefinedBy (NodeID.create "variable" "a" "vars.py" 0)
        (NodeID.create "variable" "b" "vars.py" 6) .assignment ∈
      outEdges (process (mkProcCtx varsFile) 50 initState varsFile.tree 0) := by
  decide

/-- C6 (divergence): for `def f(x: int, y): pass` the build emits THREE
`DataFlowDefinedBy` edges with `operation=parameter` — for `x`, for the
annotation identifier `int` (collected by `__collect_parameter_identifiers`
descending into the `type` field), and for `y` — not the two the
specification promises; `x`'s VariableNode does carry `type_hint = "int"`
and `y`'s is empty, but a spurious `VariableNode` named `int` exists. -/
theorem parameter_edges_include_annotation_identifier :
    runOk (process (mkProcCtx funcFile) 50 initState funcFile.tree 0) = true ∧
    (outEdges (process (mkProcCtx funcFile) 50 initState funcFile.tree 0)).filter
        isParameterEdge =
      [.dataFlowDefinedBy (NodeID.create "Function" "f" "func.py" 0)
          (NodeID.create "variable" "x" "func.py" 6) .parameter,
       .dataFlowDefinedBy (NodeID.create "Function" "f" "func.py" 0)
          (NodeID.create "variable" "int" "func.py" 9) .parameter,
       .dataFlowDefinedBy (NodeID.create "Function" "f" "func.py" 0)
          (NodeID.create "variable" "y" "func.py" 14) .parameter] ∧
    pyDictGet (outNodes (process (mkProcCtx funcFile) 50 initState funcFile.tree 0))
        (NodeID.create "variable" "x" "func.py" 6) =
      some (.var ⟨NodeID.create "variable" "x" "func.py" 6, "x", "int", 1, 1,
        "func.py"⟩) ∧
    pyDictGet (outNodes (process (mkProcCtx funcFile) 50 initState funcFile.tree 0))
        (NodeID.create "variable" "y" "func.py" 14) =
      some (.var ⟨NodeID.create "variable" "y" "func.py" 14, "y", "", 1, 1,
        "func.py"⟩) ∧
    pyDictGet (outNodes (process (mkProcCtx funcFile) 50 initState funcFile.tree 0))
        (NodeID.create "variable" "int" "func.py" 9) =
      some (.var ⟨NodeID.create "variable" "int" "func.py" 9, "int", "", 1, 1,
        "func.py"⟩) := by
  decide

/-- C3 (divergence): in `method_calls.py` the method `print` of class `A` is
registered (its FunctionNode is in the result), yet the attribute-style
call `a.print()` inside `main` produces no `CallNode` and no call-graph
edge: `__resolve_call_target` only handles identifier callees — there is no
global function registry fallback anywhere in the builder. -/
theorem attribute_call_never_resolved :
    runOk (process (mkProcCtx methodCallsFile) 60 initState
        methodCallsFile.tree 0) = true ∧
    pyDictGet (outNodes (process (mkProcCtx methodCallsFile) 60 initState
        methodCallsFile.tree 0))
        (NodeID.create "Function" "print" "method_calls.py" 13) ≠ none ∧
    (outNodes (process (mkProcCtx methodCallsFile) 60 initState
        methodCallsFile.tree 0)).all (fun kv => !isCallNodeEntry kv) = true ∧
    (outEdges (process (mkProcCtx methodCallsFile) 60 initState
        methodCallsFile.tree 0)).all (fun e => !isCallGraphEdge e) = true := by
  decide

/-- C1 (divergence): the two-file project build with import linking — even
when handed exactly the pre-binding map the linking phase computes for
`consumer.py` — produces provider's `exported_function` FunctionNode and
`EXPORTED_CONST` VariableNode but an EMPTY merged edge list: in particular
no `CallGraphCalledBy` into `exported_function` and no `DataFlowFlowsTo`
out of `EXPORTED_CONST`.  The pre-binding map never reaches the scope
resolver because `NodeProcessor` declares no `prebound_symbols` field. -/
theorem cross_file_link_edges_missing :
    dirOk (CPGDirectoryBuilder.buildFiles linkProject 100) = true ∧
    pyDictGet (dirNodes (CPGDirectoryBuilder.buildFiles linkProject 100))
        (NodeID.create "Function" "exported_function" "provider.py" 0) ≠ none ∧
    pyDictGet (dirNodes (CPGDirectoryBuilder.buildFiles linkProject 100))
        (NodeID.create "variable" "EXPORTED_CONST" "provider.py" 34) ≠ none ∧
    dirEdges (CPGDirectoryBuilder.buildFiles linkProject 100) = [] ∧
    (dirEdges (CPGDirectoryBuilder.buildFiles linkProject 100)).filter
        (isCalledByInto
          (NodeID.create "Function" "exported_function" "provider.py" 0)) = [] ∧
    (dirEdges (CPGDirectoryBuilder.buildFiles linkProject 100)).filter
        (isFlowsToFrom
          (NodeID.create "variable" "EXPORTED_CONST" "provider.py" 34)) = [] := by
  decide

/-- C7: a call whose target does not resolve is non-fatal: `_process_call`
returns the empty result with the state unchanged and raises nothing (the
condition is only logged); and concretely, the `calls.py` build — which
contains the undefined `unknown_fn()` — completes with exactly the two
call-graph edges of the resolvable `g()` call and zero edges or nodes for
`unknown_fn()`, with `g`'s FunctionNode present. -/
theorem unresolved_call_is_nonfatal (ctx : ProcCtx) (fuel : Nat)
    (st : ProcState) (node : TSNode) (bl : Nat)
    (htype : node.type_ = "call")
    (hresolve : resolve_call_target ctx st node = none) :
    process ctx (fuel + 2) st node bl = .ok (st, ([], [])) ∧
    runOk (process (mkProcCtx callsFile) 50 initState callsFile.tree 0) = true ∧
    outEdges (process (mkProcCtx callsFile) 50 initState callsFile.tree 0) =
      [.callGraphCalls (NodeID.create "code_block" "unknown_fn()" "calls.py" 18)
          (NodeID.create "call" "g()" "calls.py" 31) true 0,
       .callGraphCalledBy (NodeID.create "call" "g()" "calls.py" 31)
          (NodeID.create "Function" "g" "calls.py" 0) none false] ∧
    pyDictGet (outNodes (process (mkProcCtx callsFile) 50 initState
        callsFile.tree 0)) (NodeID.create "Function" "g" "calls.py" 0) ≠ none := by
  refine ⟨?_, by decide, by decide, by decide⟩
  have h1 : process ctx (fuel + 2) st node bl = process_call ctx (fuel + 1) st node := by
    simp [process, htype]
  rw [h1]
  cases hc : current_caller_id st with
  | none => simp [process_call, hc]
  | some callerId => simp [process_call, hc, hresolve]

/-- C7 witness: the theorem applied to the concrete `unknown_fn()` call
subtree of `calls.py`. -/
theorem unresolved_call_is_nonfatal_witness :
    process (mkProcCtx callsFile) 7 initState unknownCallTS 1 =
      .ok (initState, ([], [])) :=
  (unresolved_call_is_nonfatal (mkProcCtx callsFile) 5 initState unknownCallTS 1
    (by decide) (by decide)).1

/-- C10: an identifier callee that resolves lexically to a NodeID without the
`function:` prefix (e.g. a class name, i.e. a constructor call) is treated
exactly like an unresolved call: `__resolve_call_target` yields nothing,
`_process_call` returns the empty result without error; and concretely the
`cls.py` build (`class A: pass` followed by `A()`) completes with the
class node present, no `CallNode` and no call-graph edges. -/
theorem class_callee_produces_no_call (ctx : ProcCtx) (fuel : Nat)
    (st : ProcState) (node f : TSNode) (r : NodeID) (bl : Nat)
    (htype : node.type_ = "call")
    (hf : node.childByFieldName "function" = some f)
    (hid : f.type_ = "identifier")
    (hres : resolve_symbol st (normalize_name (get_snippet ctx f)) = some r)
    (hpre : pyStartswith r "function:" = false) :
    resolve_call_target ctx st node = none ∧
    process ctx (fuel + 2) st node bl = .ok (st, ([], [])) ∧
    runOk (process (mkProcCtx clsFile) 50 initState clsFile.tree 0) = true ∧
    pyDictGet (outNodes (process (mkProcCtx clsFile) 50 initState clsFile.tree 0))
        (NodeID.create "Class" "A" "cls.py" 0) ≠ none ∧
    (outNodes (process (mkProcCtx clsFile) 50 initState clsFile.tree 0)).all
        (fun kv => !isCallNodeEntry kv) = true ∧
    outEdges (process (mkProcCtx clsFile) 50 initState clsFile.tree 0) = [] := by
  have hrct : resolve_call_target ctx st node = none := by
    simp [resolve_call_target, hf, hid, hres, hpre]
  refine ⟨hrct, ?_, by decide, by decide, by decide, by decide⟩
  have h1 : process ctx (fuel + 2) st node bl = process_call ctx (fuel + 1) st node := by
    simp [process, htype]
  rw [h1]
  cases hc : current_caller_id st with
  | none => simp [process_call, hc]
  | some callerId => simp [process_call, hc, hrct]

/-- C10 witness: the theorem applied to the concrete `A()` call subtree of
`cls.py`, in the state where `__register_top_level_symbols` has bound `A`
to the class NodeID. -/
theorem class_callee_produces_no_call_witness :
    resolve_call_target (mkProcCtx clsFile) clsBoundState clsCallTS = none ∧
    process (mkProcCtx clsFile) 7 clsBoundState clsCallTS 1 =
      .ok (clsBoundState, ([], [])) :=
  ⟨(class_callee_produces_no_call (mkProcCtx clsFile) 5 clsBoundState clsCallTS
      (tsNode "identifier" true 18 19 2 2 []) (NodeID.create "Class" "A" "cls.py" 0)
      1 (by decide) rfl (by decide) (by decide) (by decide)).1,
   (class_callee_produces_no_call (mkProcCtx clsFile) 5 clsBoundState clsCallTS
      (tsNode "identifier" true 18 19 2 2 []) (NodeID.create "Class" "A" "cls.py" 0)
      1 (by decide) rfl (by decide) (by decide) (by decide)).2.1⟩

/-- C4 counterexample: processing a `function_definition` node whose `name`
field is missing does NOT raise — it returns the empty result with the
state unchanged (`_process_function` has an early `return`, unlike
`_process_class`). -/
theorem missing_function_name_not_fatal :
    process brokenCtx 5 initState fnNoName 0 = .ok (initState, ([], [])) :=
  rfl

/-- C4 (amended): a `class_definition` node missing its `name` field raises a
`ValueError` that propagates (never swallowed), while a
`function_definition` node missing its `name` field silently yields the
empty result without error. -/
theorem missing_name_behavior (ctx : ProcCtx) (fuel : Nat) (st : ProcState)
    (node : TSNode) (bl : Nat)
    (hname : node.childByFieldName "name" = none) :
    (node.type_ = "class_definition" →
      ∃ msg, process ctx (fuel + 2) st node bl = .error (.valueError msg)) ∧
    (node.type_ = "function_definition" →
      process ctx (fuel + 2) st node bl = .ok (st, ([], []))) := by
  constructor
  · intro htype
    refine ⟨"Class node missing name field. Node Byte Range: ("
      ++ Nat.repr node.startByte ++ ", " ++ Nat.repr node.endByte
      ++ "), Path: " ++ ctx.path, ?_⟩
    simp [process, htype, process_class, hname]
  · intro htype
    simp [process, htype, process_function, hname]

/-- C4 witness: the amended theorem applied to concrete nameless class and
function nodes. -/
theorem missing_name_behavior_witness :
    (∃ msg, process brokenCtx 3 initState classNoName 0 =
      .error (.valueError msg)) ∧
    process brokenCtx 3 initState fnNoName 0 = .ok (initState, ([], [])) :=
  ⟨(missing_name_behavior brokenCtx 1 initState classNoName 0 rfl).1
      (by decide),
   (missing_name_behavior brokenCtx 1 initState fnNoName 0 rfl).2
      (by decide)⟩

/-! ## Supporting lemmas: decimal rendering and separator splitting -/

/-- A digit character's value is the digit. -/
theorem digitVal_digitChar (m : Nat) (h : m < 10) :
    digitVal (Nat.digitChar m) = m := by
  interval_cases m <;> rfl

/-- `Nat.toDigitsCore` only prepends to its accumulator. -/
theorem toDigitsCore_append (fuel : Nat) :
    ∀ (n : Nat) (ds : List Char),
      Nat.toDigitsCore 10 fuel n ds = Nat.toDigitsCore 10 fuel n [] ++ ds := by
  induction fuel with
  | zero => intro n ds; rfl
  | succ fuel ih =>
    intro n ds
    simp only [Nat.toDigitsCore]
    by_cases h : n / 10 = 0
    · simp [h]
    · simp only [h, if_false]
      rw [ih (n / 10) [Nat.digitChar (n % 10)],
        ih (n / 10) (Nat.digitChar (n % 10) :: ds), List.append_assoc]
      rfl

/-- The decimal digits produced by `Nat.toDigitsCore` denote the number. -/
theorem digitsVal_toDigitsCore (fuel : Nat) :
    ∀ n : Nat, n < fuel →
      digitsVal 0 (Nat.toDigitsCore 10 fuel n []) = n := by
  induction fuel with
  | zero => intro n h; omega
  | succ fuel ih =>
    intro n h
    simp only [Nat.toDigitsCore]
    by_cases hdiv : n / 10 = 0
    · have hlt : n < 10 := by omega
      simp [hdiv, digitsVal, digitVal_digitChar (n % 10) (Nat.mod_lt n (by omega))]
      omega
    · simp only [hdiv, if_false]
      rw [toDigitsCore_append fuel (n / 10) [Nat.digitChar (n % 10)]]
      have hn10 : n / 10 < fuel := by omega
      have := ih (n / 10) hn10
      simp only [digitsVal, List.foldl_append] at *
      simp [this, digitVal_digitChar (n % 10) (Nat.mod_lt n (by omega))]
      omega

/-- `Nat.repr` (the `str(start_byte)` of the NodeID format) is injective. -/
theorem natRepr_injective (n m : Nat) (h : Nat.repr n = Nat.repr m) : n = m := by
  have hdata : Nat.toDigits 10 n = Nat.toDigits 10 m := congrArg String.data h
  have h1 := digitsVal_toDigitsCore (n + 1) n (Nat.lt_succ_self n)
  have h2 := digitsVal_toDigitsCore (m + 1) m (Nat.lt_succ_self m)
  unfold Nat.toDigits at hdata
  rw [hdata] at h1
  omega

/-- Splitting two concatenations at the first occurrence of a separator
absent from both prefixes. -/
theorem sep_append_inj (c : Char) :
    ∀ (a b rest rest' : List Char), c ∉ a → c ∉ b →
      a ++ c :: rest = b ++ c :: rest' → a = b ∧ rest = rest' := by
  intro a
  induction a with
  | nil =>
    intro b rest rest' _ hb heq
    cases b with
    | nil => simpa using heq
    | cons x bs =>
      simp only [List.nil_append, List.cons_append, List.cons.injEq] at heq
      exact absurd (heq.1 ▸ List.mem_cons_self x bs) hb
  | cons x as ih =>
    intro b rest rest' ha hb heq
    cases b with
    | nil =>
      simp only [List.cons_append, List.nil_append, List.cons.injEq] at heq
      obtain ⟨rfl, -⟩ := heq
      exact absurd (List.mem_cons_self _ _) ha
    | cons y bs =>
      simp only [List.cons_append, List.cons.injEq] at heq
      obtain ⟨rfl, heq⟩ := heq
      have := ih bs rest rest' (fun hx => ha (List.mem_cons_of_mem _ hx))
        (fun hx => hb (List.mem_cons_of_mem _ hx)) heq
      exact ⟨by rw [this.1], this.2⟩

/-- The character data of a `NodeID.create` result, separator-explicit. -/
theorem nodeid_data (k n p : String) (b : Nat) :
    (NodeID.create k n p b).data =
      (pyLower k).data ++ ':' ::
        (n.data ++ '@' :: (p.data ++ ':' :: (Nat.repr b).data)) := by
  simp [NodeID.create, String.data_append]

/-- Strings with equal character data are equal. -/
theorem stringDataInj (s t : String) (h : s.data = t.data) : s = t := by
  cases s; cases t; exact congrArg String.mk (by simpa using h)

/-- C2 counterexample: `make_id` is NOT injective over its four-tuple domain
(a separator character inside `name`/`path` lets two distinct tuples
collide), and it does NOT whitespace-normalize its `name` argument (two
names differing only in internal whitespace give different NodeIDs — the
normalization the claim describes happens in `NodeProcessor`'s callers,
not inside `make_id`). -/
theorem nodeid_create_claim_false :
    NodeID.create "a" "b@c" "d" 1 = NodeID.create "a" "b" "c@d" 1 ∧
    (("a", "b@c", "d", 1) : String × String × String × Nat) ≠
      ("a", "b", "c@d", 1) ∧
    NodeID.create "variable" "a  b" "p.py" 0 ≠
      NodeID.create "variable" "a b" "p.py" 0 := by
  decide

/-- C2 (amended): `make_id` is a pure function of its four-tuple and is
injective on the domain the builder actually uses — kinds that are already
lowercase and contain no `:`, names containing no `@`, paths containing no
`:` — with distinctness in any component (including `start_byte`, via
decimal-rendering injectivity) forcing distinct NodeIDs. -/
theorem nodeid_create_separator_free_injective
    (k1 n1 p1 : String) (b1 : Nat) (k2 n2 p2 : String) (b2 : Nat)
    (hk1 : pyLower k1 = k1) (hk2 : pyLower k2 = k2)
    (hck1 : ':' ∉ k1.data) (hck2 : ':' ∉ k2.data)
    (hn1 : '@' ∉ n1.data) (hn2 : '@' ∉ n2.data)
    (hp1 : ':' ∉ p1.data) (hp2 : ':' ∉ p2.data)
    (heq : NodeID.create k1 n1 p1 b1 = NodeID.create k2 n2 p2 b2) :
    k1 = k2 ∧ n1 = n2 ∧ p1 = p2 ∧ b1 = b2 := by
  have hdata := congrArg String.data heq
  rw [nodeid_data, nodeid_data, hk1, hk2] at hdata
  obtain ⟨hk, hrest1⟩ := sep_append_inj ':' _ _ _ _ hck1 hck2 hdata
  obtain ⟨hn, hrest2⟩ := sep_append_inj '@' _ _ _ _ hn1 hn2 hrest1
  obtain ⟨hp, hrest3⟩ := sep_append_inj ':' _ _ _ _ hp1 hp2 hrest2
  exact ⟨stringDataInj _ _ hk, stringDataInj _ _ hn, stringDataInj _ _ hp,
    natRepr_injective _ _ (stringDataInj _ _ hrest3)⟩

/-- C2 witness: the amended theorem applied at a concrete separator-free
tuple. -/
theorem nodeid_create_separator_free_injective_witness :
    ("function" : String) = "function" ∧ ("f" : String) = "f" ∧
    ("vars.py" : String) = "vars.py" ∧ (3 : Nat) = 3 :=
  nodeid_create_separator_free_injective "function" "f" "vars.py" 3
    "function" "f" "vars.py" 3 (by decide) (by decide) (by decide) (by decide)
    (by decide) (by decide) (by decide) (by decide) rfl

/-! ## Supporting lemmas: Python dicts and the directory merge loop -/

/-- Setting a key makes it retrievable. -/
theorem pyDictGet_set_self {α : Type} (m : List (String × α)) (k : String) (v : α) :
    pyDictGet (pyDictSet m k v) k = some v := by
  induction m with
  | nil => simp [pyDictSet, pyDictGet]
  | cons kv rest ih =>
    obtain ⟨k', v'⟩ := kv
    by_cases h : k' = k
    · simp [pyDictSet, pyDictGet, h]
    · simp [pyDictSet, pyDictGet, h, ih]

/-- Setting one key leaves other keys untouched. -/
theorem pyDictGet_set_other {α : Type} (m : List (String × α)) (k' k : String)
    (v : α) (h : k' ≠ k) :
    pyDictGet (pyDictSet m k' v) k = pyDictGet m k := by
  induction m with
  | nil => simp [pyDictSet, pyDictGet, h]
  | cons kv rest ih =>
    obtain ⟨k'', v''⟩ := kv
    by_cases h2 : k'' = k'
    · subst h2
      simp [pyDictSet, pyDictGet, h]
    · simp only [pyDictSet, h2, if_false]
      by_cases h3 : k'' = k
      · simp [pyDictGet, h3]
      · simp [pyDictGet, h3, ih]

/-- A key outside the key list is absent. -/
theorem pyDictGet_none_of_not_mem {α : Type} (m : List (String × α)) (k : String)
    (h : k ∉ m.map Prod.fst) : pyDictGet m k = none := by
  induction m with
  | nil => rfl
  | cons kv rest ih =>
    simp only [List.map_cons, List.mem_cons] at h
    push_neg at h
    obtain ⟨k', v'⟩ := kv
    have hne : ¬ k' = k := fun hh => h.1 hh.symm
    simp [pyDictGet, hne, ih h.2]

/-- Merge of an empty node map is the accumulator. -/
theorem mergeFileNodes_nil (fp : String) (merged : NodeMap) :
    mergeFileNodes fp merged [] = .ok merged := rfl

/-- Merge step: an existing key with equal content is re-stored. -/
theorem mergeFileNodes_cons_dup_eq (fp : String) (merged tl : NodeMap)
    (k' : String) (v' e : Node) (hacc : pyDictGet merged k' = some e)
    (h : e = v') :
    mergeFileNodes fp merged ((k', v') :: tl) =
      mergeFileNodes fp (pyDictSet merged k' v') tl := by
  subst h
  simp [mergeFileNodes, hacc]

/-- Merge step: an existing key with different content raises. -/
theorem mergeFileNodes_cons_dup_ne (fp : String) (merged tl : NodeMap)
    (k' : String) (v' e : Node) (hacc : pyDictGet merged k' = some e)
    (h : e ≠ v') :
    mergeFileNodes fp merged ((k', v') :: tl) =
      .error ("Duplicate node id " ++ k' ++ " encountered while parsing " ++ fp) := by
  simp [mergeFileNodes, hacc, h]

/-- Merge step: a fresh key is stored. -/
theorem mergeFileNodes_cons_fresh (fp : String) (merged tl : NodeMap)
    (k' : String) (v' : Node) (hacc : pyDictGet merged k' = none) :
    mergeFileNodes fp merged ((k', v') :: tl) =
      mergeFileNodes fp (pyDictSet merged k' v') tl := by
  simp [mergeFileNodes, hacc]

/-- A successful merge never changes an already-merged binding. -/
theorem mergeGetSome (fp : String) (k : String) (v : Node) :
    ∀ (rest merged out : NodeMap), pyDictGet merged k = some v →
      mergeFileNodes fp merged rest = .ok out → pyDictGet out k = some v := by
  intro rest
  induction rest with
  | nil =>
    intro merged out hget hm
    rw [mergeFileNodes_nil] at hm
    cases hm
    exact hget
  | cons kv tl ih =>
    intro merged out hget hm
    obtain ⟨k', v'⟩ := kv
    cases hacc : pyDictGet merged k' with
    | some e =>
      by_cases hv : e = v'
      · rw [mergeFileNodes_cons_dup_eq fp merged tl k' v' e hacc hv] at hm
        by_cases hk : k' = k
        · subst hk
          rw [hget] at hacc
          cases hacc
          subst hv
          exact ih _ _ (pyDictGet_set_self _ _ _) hm
        · refine ih _ _ ?_ hm
          rw [pyDictGet_set_other _ _ _ _ hk]
          exact hget
      · rw [mergeFileNodes_cons_dup_ne fp merged tl k' v' e hacc hv] at hm
        cases hm
    | none =>
      rw [mergeFileNodes_cons_fresh fp merged tl k' v' hacc] at hm
      have hk : k' ≠ k := by
        intro hh
        subst hh
        rw [hget] at hacc
        cases hacc
      refine ih _ _ ?_ hm
      rw [pyDictGet_set_other _ _ _ _ hk]
      exact hget

/-- A binding conflicting with the accumulator makes the merge raise. -/
theorem mergeConflictError (fp : String) (k : String) (v w : Node) (hvw : v ≠ w) :
    ∀ (rest merged : NodeMap), pyDictGet merged k = some v →
      pyDictGet rest k = some w →
      ∃ msg, mergeFileNodes fp merged rest = .error msg := by
  intro rest
  induction rest with
  | nil =>
    intro merged hget hrest
    simp [pyDictGet] at hrest
  | cons kv tl ih =>
    intro merged hget hrest
    obtain ⟨k', v'⟩ := kv
    by_cases hk : k' = k
    · subst hk
      simp only [pyDictGet, if_pos rfl] at hrest
      cases hrest
      rw [mergeFileNodes_cons_dup_ne fp merged tl k' w v hget hvw]
      exact ⟨_, rfl⟩
    · have hrest' : pyDictGet tl k = some w := by
        simpa [pyDictGet, hk] using hrest
      cases hacc : pyDictGet merged k' with
      | some e =>
        by_cases hv : e = v'
        · rw [mergeFileNodes_cons_dup_eq fp merged tl k' v' e hacc hv]
          refine ih _ ?_ hrest'
          rw [pyDictGet_set_other _ _ _ _ hk]
          exact hget
        · rw [mergeFileNodes_cons_dup_ne fp merged tl k' v' e hacc hv]
          exact ⟨_, rfl⟩
      | none =>
        rw [mergeFileNodes_cons_fresh fp merged tl k' v' hacc]
        refine ih _ ?_ hrest'
        rw [pyDictGet_set_other _ _ _ _ hk]
        exact hget

/-- A duplicate-free node map whose shared keys agree with the accumulator
merges without error, and the result is the left-biased union. -/
theorem mergeCompatOk (fp : String) :
    ∀ (m acc : NodeMap), (m.map Prod.fst).Nodup →
      (∀ k v w, pyDictGet acc k = some v → pyDictGet m k = some w → v = w) →
      ∃ out, mergeFileNodes fp acc m = .ok out ∧
        ∀ k, pyDictGet out k =
          (if (pyDictGet acc k).isSome then pyDictGet acc k else pyDictGet m k) := by
  intro m
  induction m with
  | nil =>
    intro acc _ _
    refine ⟨acc, mergeFileNodes_nil fp acc, fun k => ?_⟩
    cases h : pyDictGet acc k <;> simp [h, pyDictGet]
  | cons kv tl ih =>
    intro acc hnd hcompat
    obtain ⟨k', v'⟩ := kv
    simp only [List.map_cons, List.nodup_cons] at hnd
    have htl_none : pyDictGet tl k' = none :=
      pyDictGet_none_of_not_mem tl k' hnd.1
    have hstep : mergeFileNodes fp acc ((k', v') :: tl) =
        mergeFileNodes fp (pyDictSet acc k' v') tl := by
      cases hacc : pyDictGet acc k' with
      | some e =>
        have he : e = v' := hcompat k' e v' hacc (by simp [pyDictGet])
        exact mergeFileNodes_cons_dup_eq fp acc tl k' v' e hacc he
      | none => exact mergeFileNodes_cons_fresh fp acc tl k' v' hacc
    have hcompat' : ∀ k v w, pyDictGet (pyDictSet acc k' v') k = some v →
        pyDictGet tl k = some w → v = w := by
      intro k v w hget htl
      by_cases hk : k' = k
      · subst hk
        rw [htl_none] at htl
        cases htl
      · rw [pyDictGet_set_other _ _ _ _ hk] at hget
        refine hcompat k v w hget ?_
        simp [pyDictGet, hk, htl]
    obtain ⟨out, hout, hchar⟩ := ih (pyDictSet acc k' v') hnd.2 hcompat'
    refine ⟨out, by rw [hstep]; exact hout, fun k => ?_⟩
    rw [hchar k]
    by_cases hk : k' = k
    · subst hk
      rw [pyDictGet_set_self]
      cases hacc : pyDictGet acc k' with
      | some e =>
        have he : e = v' := hcompat k' e v' hacc (by simp [pyDictGet])
        simp [hacc, he, pyDictGet]
      | none => simp [hacc, pyDictGet]
    · rw [pyDictGet_set_other _ _ _ _ hk]
      simp [pyDictGet, hk]

/-- C8: when the directory builder merges two files' node maps, a NodeID
mapped to differing node content in the two maps makes the build raise
(never silently picks one node), while maps whose shared NodeIDs carry
identical content merge without error into the plain union. -/
theorem merge_collision_policy (fp : String) (m1 m2 : NodeMap)
    (hnd1 : (m1.map Prod.fst).Nodup) :
    (∀ k v w, pyDictGet m1 k = some v → pyDictGet m2 k = some w → v ≠ w →
      ∃ msg, mergeTwoFiles fp m1 m2 = .error msg) ∧
    ((∀ k v w, pyDictGet m1 k = some v → pyDictGet m2 k = some w → v = w) →
      (m2.map Prod.fst).Nodup →
      ∃ out, mergeTwoFiles fp m1 m2 = .ok out ∧
        ∀ k, pyDictGet out k =
          (if (pyDictGet m1 k).isSome then pyDictGet m1 k else pyDictGet m2 k)) := by
  obtain ⟨out1, hout1, hchar1⟩ := mergeCompatOk fp m1 [] hnd1
    (by intro k v w hget _; simp [pyDictGet] at hget)
  have hchar1' : ∀ k, pyDictGet out1 k = pyDictGet m1 k := by
    intro k
    rw [hchar1 k]
    simp [pyDictGet]
  have hunfold : mergeTwoFiles fp m1 m2 = mergeFileNodes fp out1 m2 := by
    simp [mergeTwoFiles, hout1]
  constructor
  · intro k v w h1 h2 hne
    obtain ⟨msg, hmsg⟩ := mergeConflictError fp k v w hne m2 out1
      (by rw [hchar1' k]; exact h1) h2
    exact ⟨msg, by rw [hunfold, hmsg]⟩
  · intro hcompat hnd2
    obtain ⟨out, hout, hchar⟩ := mergeCompatOk fp m2 out1 hnd2
      (by intro k v w hget hm2; exact hcompat k v w (by rw [← hchar1' k]; exact hget) hm2)
    refine ⟨out, by rw [hunfold]; exact hout, fun k => ?_⟩
    rw [hchar k, hchar1' k]

/-- C8 witness: the theorem applied to concrete one-entry node maps, once
conflicting and once identical. -/
theorem merge_collision_policy_witness :
    (∃ msg, mergeTwoFiles "f.py"
      [("x", Node.codeBlock ⟨"x", 1, 1, "f.py"⟩)]
      [("x", Node.codeBlock ⟨"x", 1, 2, "f.py"⟩)] = .error msg) ∧
    (∃ out, mergeTwoFiles "f.py"
      [("x", Node.codeBlock ⟨"x", 1, 1, "f.py"⟩)]
      [("x", Node.codeBlock ⟨"x", 1, 1, "f.py"⟩)] = .ok out ∧
      ∀ k, pyDictGet out k =
        (if (pyDictGet [("x", Node.codeBlock ⟨"x", 1, 1, "f.py"⟩)] k).isSome
         then pyDictGet [("x", Node.codeBlock ⟨"x", 1, 1, "f.py"⟩)] k
         else pyDictGet [("x", Node.codeBlock ⟨"x", 1, 1, "f.py"⟩)] k)) :=
  ⟨(merge_collision_policy "f.py" _ _ (by decide)).1 "x"
      (Node.codeBlock ⟨"x", 1, 1, "f.py"⟩) (Node.codeBlock ⟨"x", 1, 2, "f.py"⟩)
      rfl rfl (by decide),
   (merge_collision_policy "f.py" _ _ (by decide)).2
      (by intro k v w h1 h2; rw [h1] at h2; exact Option.some.inj h2)
      (by decide)⟩

/-! ## Supporting lemmas: dotted-name splitting and joining -/

/-- Splitting always yields at least one piece. -/
theorem pySplitDotAux_ne_nil (l : List Char) : pySplitDotAux l ≠ [] := by
  cases l with
  | nil => simp [pySplitDotAux]
  | cons c rest =>
    simp only [pySplitDotAux]
    cases h : pySplitDotAux rest with
    | nil => simp
    | cons hh tt => by_cases hc : c = '.' <;> simp [hc]

/-- Splitting a dot-free list yields it whole. -/
theorem pySplitDotAux_dotfree (l : List Char) (h : '.' ∉ l) :
    pySplitDotAux l = [l] := by
  induction l with
  | nil => rfl
  | cons c rest ih =>
    simp only [List.mem_cons] at h
    push_neg at h
    simp only [pySplitDotAux]
    rw [ih h.2]
    have hne : ¬ c = '.' := fun hh => h.1 hh.symm
    simp [hne]

/-- Splitting peels a dot-free prefix at its separator. -/
theorem pySplitDotAux_append (p xs : List Char) (h : '.' ∉ p) :
    pySplitDotAux (p ++ '.' :: xs) = p :: pySplitDotAux xs := by
  induction p with
  | nil =>
    simp only [List.nil_append, pySplitDotAux]
    cases hx : pySplitDotAux xs with
    | nil => exact absurd hx (pySplitDotAux_ne_nil xs)
    | cons hh tt => simp
  | cons c rest ih =>
    simp only [List.mem_cons] at h
    push_neg at h
    simp only [List.cons_append, pySplitDotAux, List.append_eq]
    rw [ih h.2]
    have hne : ¬ c = '.' := fun hh => h.1 hh.symm
    simp [hne]

/-- Splitting a dot-joined list of dot-free pieces recovers the pieces. -/
theorem pySplitDotAux_join (parts : List (List Char)) (hne : parts ≠ [])
    (hwf : ∀ p ∈ parts, '.' ∉ p) :
    pySplitDotAux (pyJoinAux ['.'] parts) = parts := by
  induction parts with
  | nil => exact absurd rfl hne
  | cons p rest ih =>
    cases rest with
    | nil =>
      simp only [pyJoinAux]
      exact pySplitDotAux_dotfree p (hwf p (List.mem_cons_self _ _))
    | cons q tl =>
      have hj : pyJoinAux ['.'] (p :: q :: tl) =
          p ++ '.' :: pyJoinAux ['.'] (q :: tl) := by
        simp [pyJoinAux]
      rw [hj, pySplitDotAux_append p _ (hwf p (List.mem_cons_self _ _)),
        ih (by simp) (fun r hr => hwf r (List.mem_cons_of_mem _ hr))]

/-- Rebuilding a string from its data is the identity. -/
theorem stringMkData (s : String) : String.mk s.data = s := by cases s; rfl

/-- String-level: `".".join` then `.split(".")` is the identity on
non-empty lists of dot-free parts. -/
theorem pySplitDot_join (parts : List String) (hne : parts ≠ [])
    (hwf : ∀ p ∈ parts, '.' ∉ p.data) :
    pySplitDot (pyJoin "." parts) = parts := by
  have hdata : (pyJoin "." parts).data = pyJoinAux ['.'] (parts.map String.data) := rfl
  unfold pySplitDot
  rw [hdata, pySplitDotAux_join (parts.map String.data)
    (by simpa using hne)
    (by intro p hp
        simp only [List.mem_map] at hp
        obtain ⟨q, hq, rfl⟩ := hp
        exact hwf q hq)]
  rw [List.map_map]
  have : (String.mk ∘ String.data) = id := funext fun s => stringMkData s
  rw [this, List.map_id]

/-- A non-empty string has non-empty data. -/
theorem string_data_ne_nil (p : String) (h : p ≠ "") : p.data ≠ [] := by
  intro hd
  exact h (by rw [← stringMkData p, hd])

/-- A dot-join headed by a non-empty part is non-empty. -/
theorem pyJoin_ne_empty (p : String) (rest : List String) (h : p ≠ "") :
    pyJoin "." (p :: rest) ≠ "" := by
  intro hc
  have hd := congrArg String.data hc
  have hpd := string_data_ne_nil p h
  cases rest with
  | nil => exact hpd (by simpa [pyJoin, pyJoinAux] using hd)
  | cons q tl =>
    have : (pyJoin "." (p :: q :: tl)).data =
        p.data ++ '.' :: pyJoinAux ['.'] ((q :: tl).map String.data) := by
      simp [pyJoin, pyJoinAux]
    rw [this, show ("" : String).data = [] from rfl] at hd
    simp at hd

/-- A one-part join of a dot-free part contains no dot. -/
theorem pyContainsDot_single (p : String) (h : '.' ∉ p.data) :
    pyContainsDot (pyJoin "." [p]) = false := by
  have hdata : (pyJoin "." [p]).data = p.data := rfl
  simp only [pyContainsDot, hdata, List.contains]
  rw [Bool.eq_false_iff]
  intro hc
  exact h (List.elem_iff.mp hc)

/-- A multi-part dot-join contains a dot. -/
theorem pyContainsDot_multi (p q : String) (rest : List String) :
    pyContainsDot (pyJoin "." (p :: q :: rest)) = true := by
  have hdata : (pyJoin "." (p :: q :: rest)).data =
      p.data ++ '.' :: pyJoinAux ['.'] ((q :: rest).map String.data) := by
    simp [pyJoin, pyJoinAux]
  simp only [pyContainsDot, hdata, List.contains]
  exact List.elem_iff.mpr (by simp)

/-- The `parts` list `_resolve_import_from_module` computes for a well-formed
dotted module name is exactly the module's package path (the dotted parts
with the last one dropped). -/
theorem resolve_package_parts (mparts : List String) (hne : mparts ≠ [])
    (hwf : ∀ p ∈ mparts, p ≠ "" ∧ '.' ∉ p.data) :
    (pySplitDot (if pyContainsDot (pyJoin "." mparts)
        then pyRsplitDotHead (pyJoin "." mparts) else "")).filter (· ≠ "") =
      mparts.dropLast := by
  cases mparts with
  | nil => exact absurd rfl hne
  | cons p rest =>
    cases rest with
    | nil =>
      rw [pyContainsDot_single p (hwf p (by simp)).2]
      simp [pySplitDot, pySplitDotAux]
    | cons q tl =>
      rw [pyContainsDot_multi p q tl]
      simp only [if_true]
      unfold pyRsplitDotHead
      rw [pySplitDot_join (p :: q :: tl) (by simp) (fun r hr => (hwf r hr).2)]
      have hdl_ne : (p :: q :: tl).dropLast ≠ [] := by
        simp [List.dropLast]
      rw [pySplitDot_join _ hdl_ne
        (fun r hr => (hwf r (List.dropLast_subset _ hr)).2)]
      rw [List.filter_eq_self.mpr]
      intro r hr
      simpa using (hwf r (List.dropLast_subset _ hr)).1

/-- C9: for `from X import …` in a module `M` (both given by their non-empty
lists of non-empty dot-free dotted parts), the resolved absolute module
name is `X` itself at level 0; the current package of `M` joined with `X`
at level 1; and, for every level `N > 1` that stays within the package
depth, the package obtained by walking up `N−1` additional levels from
`M`'s package, joined with `X`. -/
theorem resolve_import_honors_level
    (mparts xparts : List String)
    (hm : mparts ≠ []) (hmwf : ∀ p ∈ mparts, p ≠ "" ∧ '.' ∉ p.data)
    (hx : xparts ≠ []) (hxwf : ∀ p ∈ xparts, p ≠ "" ∧ '.' ∉ p.data) :
    (resolve_import_from_module (pyJoin "." mparts) 0 (some (pyJoin "." xparts)) =
      some (pyJoin "." xparts)) ∧
    (resolve_import_from_module (pyJoin "." mparts) 1 (some (pyJoin "." xparts)) =
      some (pyJoin "." (mparts.dropLast ++ xparts))) ∧
    (∀ lvl : Nat, 2 ≤ lvl → lvl - 1 ≤ mparts.dropLast.length →
      resolve_import_from_module (pyJoin "." mparts) (lvl : Int)
          (some (pyJoin "." xparts)) =
        some (pyJoin "." (mparts.dropLast.take
          (mparts.dropLast.length - (lvl - 1)) ++ xparts))) := by
  obtain ⟨x0, xtl, rfl⟩ : ∃ x0 xtl, xparts = x0 :: xtl := by
    cases xparts with
    | nil => exact absurd rfl hx
    | cons a b => exact ⟨a, b, rfl⟩
  have hXne : pyJoin "." (x0 :: xtl) ≠ "" :=
    pyJoin_ne_empty x0 xtl (hxwf x0 (by simp)).1
  have hXsplit : (pySplitDot (pyJoin "." (x0 :: xtl))).filter (· ≠ "") = x0 :: xtl := by
    rw [pySplitDot_join _ (by simp) (fun r hr => (hxwf r hr).2)]
    rw [List.filter_eq_self.mpr]
    intro r hr
    simpa using (hxwf r hr).1
  have hparts := resolve_package_parts mparts hm hmwf
  have hXsplit' := hXsplit
  simp only [ne_eq, decide_not] at hXsplit' 
  refine ⟨by simp [resolve_import_from_module], ?_, ?_⟩
  · show resolve_import_from_module _ 1 _ = _
    unfold resolve_import_from_module
    rw [if_neg (by omega), if_neg (by omega), hparts]
    have hup : ((1 : Int) - 1).toNat = 0 := by omega
    rw [hup]
    have hne2 : mparts.dropLast ++ x0 :: xtl ≠ [] := by simp
    simp [hXne, hXsplit, hXsplit', hne2]
  · intro lvl h2 hle
    unfold resolve_import_from_module
    rw [if_neg (by omega), if_neg (by omega), hparts]
    have hup : (((lvl : Int)) - 1).toNat = lvl - 1 := by omega
    rw [hup]
    have hgt : ¬ lvl - 1 > mparts.dropLast.length := by omega
    have hgt2 : ¬ (mparts.length - 1 < lvl - 1) := by
      have hld := List.length_dropLast mparts
      omega
    have hne0 : lvl - 1 ≠ 0 := by omega
    have hne2 : mparts.dropLast.take (mparts.dropLast.length - (lvl - 1))
        ++ x0 :: xtl ≠ [] := by simp
    simp [hgt, hgt2, hne0, hXne, hXsplit, hXsplit', hne2]

/-- C9 witness: the theorem applied to `M = pkg.sub.consumer`,
`X = provider`, at levels 0, 1 and 2. -/
theorem resolve_import_honors_level_witness :
    resolve_import_from_module "pkg.sub.consumer" 0 (some "provider") =
      some "provider" ∧
    resolve_import_from_module "pkg.sub.consumer" 1 (some "provider") =
      some "pkg.sub.provider" ∧
    resolve_import_from_module "pkg.sub.consumer" 2 (some "provider") =
      some "pkg.provider" := by
  have h := resolve_import_honors_level ["pkg", "sub", "consumer"] ["provider"]
    (by decide) (by decide) (by decide) (by decide)
  exact ⟨h.1, h.2.1, h.2.2 2 (by omega) (by decide)⟩
